import Mathlib

/-! EmbeddedLapack: the arena discipline of `linalg_svd`.

A shallow embedding of `src/main.c`.  The routine `linalg_svd` borrows a
fixed-capacity buffer (`LinalgBuffer`), bumps its cursor `len` for a copy of
the input matrix and for the workspace of the LAPACK routine `dgesvd_`, calls
`dgesvd_` twice (workspace query, then decomposition) and moves the cursor
back.

Modelling conventions.

* `int` and `integer` values are mathematical integers.  C leaves signed
  overflow undefined, so the embedding describes the executions in which no
  intermediate value leaves the machine range.
* `doublereal` is an arbitrary type `α`: `linalg_svd` only copies elements.
* A C array reached through a pointer is a map from indices to elements, and a
  pointer into `buf->data` is the index it points at.  Whether an index is
  inside `data[BUF_SIZE]` is a proof obligation, not part of the map.
* `dgesvd_` is external.  It is a parameter: a function of a hidden kernel
  state, the scalar arguments and the memory reachable through the pointer
  arguments, returning the memory afterwards, the value left in `work[0]`
  (already converted to `integer`), the value left in `info`, and the next
  kernel state.  The scalar arguments `m`, `n`, `lda`, `ldu`, `ldvt` and
  `lwork` are inputs of the routine and are taken as not modified by it.
* Every call of `dgesvd_` is recorded, with the value of `buf->len` at the
  time of the call, in the list `calls` of the result.
-/

namespace EmbeddedLapack

/-- The constant `BUF_SIZE`: number of elements of `LinalgBuffer.data`. -/
def BUF_SIZE : Int := 64

/-- The constant `ROWS` of the driver. -/
def ROWS : Int := 3

/-- The constant `COLS` of the driver. -/
def COLS : Int := 3

/-- The struct `LinalgBuffer`: cursor `len`, ceiling `max_len`, storage `data`. -/
structure LinalgBuffer (α : Type) where
  len : Int
  max_len : Int
  data : Int → α

/-- The scalar and pointer-position arguments of one call
`dgesvd_(jobu, jobvt, m, n, a, lda, s, u, ldu, vt, ldvt, work, lwork, info)`.
`a` is the index in `buf->data` that the pointer `Ain` designates; `work` is
`none` when the argument is the address of the local `work_query`, and
`some i` when it is `&buf->data[i]`; `info` is the value of `info` on entry. -/
structure KernelArgs where
  jobu : Char
  jobvt : Char
  m : Int
  n : Int
  a : Int
  lda : Int
  ldu : Int
  ldvt : Int
  work : Option Int
  lwork : Int
  info : Int
deriving DecidableEq, Repr

/-- The memory `dgesvd_` reaches through its pointer arguments: the storage of
the buffer and the three output arrays of the caller. -/
structure KernelMem (α : Type) where
  data : Int → α
  S : Int → α
  U : Int → α
  VT : Int → α

/-- What a call of `dgesvd_` leaves behind: the memory, `(integer) work[0]`,
`info`, and the next hidden state of the kernel. -/
structure KernelReply (α κ : Type) where
  mem : KernelMem α
  work0 : Int
  info : Int
  next : κ

/-- The external routine `dgesvd_`. -/
abbrev Kernel (α κ : Type) := κ → KernelArgs → KernelMem α → KernelReply α κ

/-- One recorded call of `dgesvd_`: its arguments and the value of `buf->len`
when it was made. -/
structure CallRecord where
  args : KernelArgs
  len : Int
deriving DecidableEq, Repr

/-- Everything observable when `linalg_svd` returns: the returned value, the
buffer, the three output arrays, the caller's input array `A` (a `const`
parameter, read by the `memcpy` of line 91 and not otherwise used), the state of
the kernel, and the record of the calls made. -/
structure SvdResult (α κ : Type) where
  retval : Int
  buf : LinalgBuffer α
  U : Int → α
  S : Int → α
  VT : Int → α
  A : Int → α
  kernel : κ
  calls : List CallRecord

/-- The call `memcpy(&dst[off], src, count * sizeof(double))` for `0 ≤ count`. -/
def memcpy {α : Type} (dst : Int → α) (off : Int) (src : Int → α) (count : Int) : Int → α :=
  fun i => if off ≤ i ∧ i < off + count then src (i - off) else dst i

/-- The value of `ldvt` computed at lines 93-97 of `main.c`. -/
def ldvt_of (m n : Int) (Vfull : Bool) : Int :=
  if m < n ∧ Vfull = false then m else n

/-- The option character chosen at lines 88-89: `full ? 'A' : 'S'`. -/
def jobOpt (full : Bool) : Char := if full then 'A' else 'S'

/-- The arguments of the first call of `dgesvd_` (line 102), made with the
local `work_query`, `lwork = -1` and `info = 0`, for a buffer whose cursor was
`len` on entry. -/
def queryArgs (m n : Int) (Ufull Vfull : Bool) (len : Int) : KernelArgs :=
  { jobu := jobOpt Ufull, jobvt := jobOpt Vfull, m := m, n := n, a := len, lda := m, ldu := m,
    ldvt := ldvt_of m n Vfull, work := none, lwork := -1, info := 0 }

/-- What the first call of `dgesvd_` (line 102) leaves behind: it runs on the
buffer storage after the `memcpy` of line 91 and on the caller's outputs. -/
def queryReply {α κ : Type} (dgesvd_ : Kernel α κ) (k : κ)
    (U S VT : Int → α) (A : Int → α) (m n : Int) (Ufull Vfull : Bool)
    (buf : LinalgBuffer α) : KernelReply α κ :=
  dgesvd_ k (queryArgs m n Ufull Vfull buf.len)
    { data := memcpy buf.data buf.len A (m * n), S := S, U := U, VT := VT }

/-- The arguments of the second call of `dgesvd_` (line 119): the workspace is
`&buf->data[len + m * n]`, `lwork` is the converted `work_query`, and `info`
still holds what the first call stored. -/
def computeArgs (m n : Int) (Ufull Vfull : Bool) (len lwork info : Int) : KernelArgs :=
  { jobu := jobOpt Ufull, jobvt := jobOpt Vfull, m := m, n := n, a := len, lda := m, ldu := m,
    ldvt := ldvt_of m n Vfull, work := some (len + m * n), lwork := lwork, info := info }

/-- What the second call of `dgesvd_` (line 119) leaves behind: it runs on the
memory and kernel state left by the first call. -/
def computeReply {α κ : Type} (dgesvd_ : Kernel α κ) (k : κ)
    (U S VT : Int → α) (A : Int → α) (m n : Int) (Ufull Vfull : Bool)
    (buf : LinalgBuffer α) : KernelReply α κ :=
  let q := queryReply dgesvd_ k U S VT A m n Ufull Vfull buf
  dgesvd_ q.next (computeArgs m n Ufull Vfull buf.len q.work0 q.info) q.mem

/-- The function `linalg_svd` of `main.c`, statement by statement. -/
def linalg_svd {α κ : Type} (dgesvd_ : Kernel α κ) (k : κ)
    (U S VT : Int → α) (A : Int → α) (m n : Int) (Ufull Vfull : Bool)
    (buf : LinalgBuffer α) : SvdResult α κ :=
  -- retval = 0; A_len = m * n
  let A_len : Int := m * n
  if buf.max_len < buf.len + A_len then
    -- retval = 1
    { retval := 1, buf := buf, U := U, S := S, VT := VT, A := A, kernel := k, calls := [] }
  else
    -- Ain = &buf->data[buf->len]; buf->len += A_len
    let len1 : Int := buf.len + A_len
    -- memcpy, ldvt, work_query = 0.0, lwork = -1, info = 0, first call of dgesvd_
    let q := queryReply dgesvd_ k U S VT A m n Ufull Vfull buf
    let qrec : CallRecord := { args := queryArgs m n Ufull Vfull buf.len, len := len1 }
    -- lwork = (integer) work_query
    let lwork : Int := q.work0
    if q.info = 0 then
      if buf.max_len < len1 + lwork then
        -- buf->len -= A_len; retval = 2; then, at the common exit, buf->len -= A_len
        let len2 : Int := len1 - A_len
        { retval := 2,
          buf := { len := len2 - A_len, max_len := buf.max_len, data := q.mem.data },
          U := q.mem.U, S := q.mem.S, VT := q.mem.VT, A := A, kernel := q.next,
          calls := [qrec] }
      else
        -- work = &buf->data[buf->len]; buf->len += lwork
        let len2 : Int := len1 + lwork
        -- second call of dgesvd_
        let c := computeReply dgesvd_ k U S VT A m n Ufull Vfull buf
        let crec : CallRecord :=
          { args := computeArgs m n Ufull Vfull buf.len lwork q.info, len := len2 }
        -- if (info != 0) retval = (info < 0) ? 3 : 4
        let retval : Int := if c.info ≠ 0 then (if c.info < 0 then 3 else 4) else 0
        -- buf->len -= lwork; then, at the common exit, buf->len -= A_len
        let len3 : Int := len2 - lwork
        { retval := retval,
          buf := { len := len3 - A_len, max_len := buf.max_len, data := c.mem.data },
          U := c.mem.U, S := c.mem.S, VT := c.mem.VT, A := A, kernel := c.next,
          calls := [qrec, crec] }
    else
      -- retval = 5; then, at the common exit, buf->len -= A_len
      { retval := 5,
        buf := { len := len1 - A_len, max_len := buf.max_len, data := q.mem.data },
        U := q.mem.U, S := q.mem.S, VT := q.mem.VT, A := A, kernel := q.next,
        calls := [qrec] }

/-- Index `i` lies in the region of `size` elements starting at `off`. -/
def inRegion (off size i : Int) : Prop := off ≤ i ∧ i < off + size

instance (off size i : Int) : Decidable (inRegion off size i) := by
  unfold inRegion; infer_instance

/-- The quantity `s` of the documentation comment of `linalg_svd`:
`if (m <= n) then s = m else s = n`. -/
def svd_s (m n : Int) : Int := if m ≤ n then m else n

/-- Number of rows of `VT` in the documentation comment of `linalg_svd`:
`VT(s,n)` when `Vfull` is 0 and `VT(n,n)` when it is 1, for either `Ufull`. -/
def vt_rows (m n : Int) (Ufull Vfull : Bool) : Int :=
  match Ufull, Vfull with
  | false, false => svd_s m n
  | true, false => svd_s m n
  | false, true => n
  | true, true => n

/-- The matrix `A` of the driver `main`: the 3x3 identity. -/
def main_A : Int → ℚ :=
  fun i => ([1, 0, 0, 0, 1, 0, 0, 0, 1] : List ℚ).getD i.toNat 0

/-- The buffer of the driver `main`: `{0, BUF_SIZE, {}}`. -/
def main_buf : LinalgBuffer ℚ := { len := 0, max_len := BUF_SIZE, data := fun _ => 0 }

/-- A buffer with cursor `len`, ceiling `cap` and zeroed storage. -/
def zeroBuf (len cap : Int) : LinalgBuffer ℚ := { len := len, max_len := cap, data := fun _ => 0 }

/-- An output array before the call (the driver leaves them uninitialised; a
fixed content is chosen here). -/
def out0 : Int → ℚ := fun _ => 0

/-- A stand-in kernel that leaves all memory as it is, stores `lw` in `work[0]`
and sets `info` to `qi` when called with the local `work_query` and to `ci`
when called with a workspace inside the buffer. -/
def fixedKernel (lw qi ci : Int) : Kernel ℚ Unit :=
  fun _ args mem =>
    { mem := mem, work0 := lw, info := if args.work = none then qi else ci, next := () }

/-- The status as a function of seven integers only, with the failure
conditions tested in the order: copy does not fit (1), query failed (5),
workspace does not fit (2), then the result of the second call (3 or 4), and 0
when none applies. -/
def statusSpec (len max_len m n qinfo lwork cinfo : Int) : Int :=
  if len + m * n > max_len then 1
  else if qinfo ≠ 0 then 5
  else if len + m * n + lwork > max_len then 2
  else if cinfo < 0 then 3
  else if cinfo > 0 then 4
  else 0

/-- A kernel that writes the buffer storage only inside what it is handed: the
matrix at `a` (`lda * n` elements) and, when the workspace lies in the buffer,
the `lwork` elements at `work`. -/
def writesOnlyHanded {α κ : Type} (dgesvd_ : Kernel α κ) : Prop :=
  ∀ (k : κ) (args : KernelArgs) (mem : KernelMem α) (i : Int),
    ¬ inRegion args.a (args.lda * args.n) i →
    (∀ w, args.work = some w → ¬ inRegion w args.lwork i) →
    (dgesvd_ k args mem).mem.data i = mem.data i

/-- Whether index `i` of the buffer storage lies in what a call with arguments
`args` is handed: the matrix at `a` (`lda * n` elements) or, when the workspace
lies in the buffer, the `lwork` elements at `work`. -/
def handed (args : KernelArgs) (i : Int) : Bool :=
  decide (inRegion args.a (args.lda * args.n) i) ||
    (match args.work with
     | none => false
     | some w => decide (inRegion w args.lwork i))

/-- A stand-in kernel that stores `v` in every element of the buffer it is
handed and leaves the rest of the memory as it is; it stores `lw` in `work[0]`
and sets `info` to `qi` when called with the local `work_query` and to `ci`
when called with a workspace inside the buffer. -/
def stampKernel (v : ℚ) (lw qi ci : Int) : Kernel ℚ Unit :=
  fun _ args mem =>
    { mem := { data := fun i => if handed args i = true then v else mem.data i,
               S := mem.S, U := mem.U, VT := mem.VT },
      work0 := lw, info := if args.work = none then qi else ci, next := () }

/-! ## The four exit paths of `linalg_svd` -/

/-- Exit with `retval = 1`: the test of line 78 holds and nothing else runs. -/
theorem svd_path_input {α κ : Type} (dgesvd_ : Kernel α κ) (k : κ)
    (U S VT A : Int → α) (m n : Int) (Ufull Vfull : Bool) (buf : LinalgBuffer α)
    (h : buf.max_len < buf.len + m * n) :
    linalg_svd dgesvd_ k U S VT A m n Ufull Vfull buf =
      { retval := 1, buf := buf, U := U, S := S, VT := VT, A := A, kernel := k, calls := [] } := by
  simp only [linalg_svd, if_pos h]

/-- Exit with `retval = 5`: the copy fits and the first call stores a non-zero `info`. -/
theorem svd_path_query {α κ : Type} (dgesvd_ : Kernel α κ) (k : κ)
    (U S VT A : Int → α) (m n : Int) (Ufull Vfull : Bool) (buf : LinalgBuffer α)
    (h1 : ¬ buf.max_len < buf.len + m * n)
    (h2 : (queryReply dgesvd_ k U S VT A m n Ufull Vfull buf).info ≠ 0) :
    linalg_svd dgesvd_ k U S VT A m n Ufull Vfull buf =
      { retval := 5,
        buf := { len := buf.len + m * n - m * n, max_len := buf.max_len,
                 data := (queryReply dgesvd_ k U S VT A m n Ufull Vfull buf).mem.data },
        U := (queryReply dgesvd_ k U S VT A m n Ufull Vfull buf).mem.U,
        S := (queryReply dgesvd_ k U S VT A m n Ufull Vfull buf).mem.S,
        VT := (queryReply dgesvd_ k U S VT A m n Ufull Vfull buf).mem.VT,
        A := A,
        kernel := (queryReply dgesvd_ k U S VT A m n Ufull Vfull buf).next,
        calls := [{ args := queryArgs m n Ufull Vfull buf.len, len := buf.len + m * n }] } := by
  simp only [linalg_svd, if_neg h1, if_neg h2]

/-- Exit with `retval = 2`: the copy fits, the first call stores `info = 0`, and
the test of line 107 holds.  The cursor is decremented by `m * n` at line 109
and again at line 147. -/
theorem svd_path_scratch {α κ : Type} (dgesvd_ : Kernel α κ) (k : κ)
    (U S VT A : Int → α) (m n : Int) (Ufull Vfull : Bool) (buf : LinalgBuffer α)
    (h1 : ¬ buf.max_len < buf.len + m * n)
    (h2 : (queryReply dgesvd_ k U S VT A m n Ufull Vfull buf).info = 0)
    (h3 : buf.max_len <
      buf.len + m * n + (queryReply dgesvd_ k U S VT A m n Ufull Vfull buf).work0) :
    linalg_svd dgesvd_ k U S VT A m n Ufull Vfull buf =
      { retval := 2,
        buf := { len := buf.len + m * n - m * n - m * n, max_len := buf.max_len,
                 data := (queryReply dgesvd_ k U S VT A m n Ufull Vfull buf).mem.data },
        U := (queryReply dgesvd_ k U S VT A m n Ufull Vfull buf).mem.U,
        S := (queryReply dgesvd_ k U S VT A m n Ufull Vfull buf).mem.S,
        VT := (queryReply dgesvd_ k U S VT A m n Ufull Vfull buf).mem.VT,
        A := A,
        kernel := (queryReply dgesvd_ k U S VT A m n Ufull Vfull buf).next,
        calls := [{ args := queryArgs m n Ufull Vfull buf.len, len := buf.len + m * n }] } := by
  simp only [linalg_svd, if_neg h1, if_pos h2, if_pos h3]

/-- Exit after the second call: the copy fits, the first call stores `info = 0`,
and the test of line 107 fails. -/
theorem svd_path_compute {α κ : Type} (dgesvd_ : Kernel α κ) (k : κ)
    (U S VT A : Int → α) (m n : Int) (Ufull Vfull : Bool) (buf : LinalgBuffer α)
    (h1 : ¬ buf.max_len < buf.len + m * n)
    (h2 : (queryReply dgesvd_ k U S VT A m n Ufull Vfull buf).info = 0)
    (h3 : ¬ buf.max_len <
      buf.len + m * n + (queryReply dgesvd_ k U S VT A m n Ufull Vfull buf).work0) :
    linalg_svd dgesvd_ k U S VT A m n Ufull Vfull buf =
      { retval :=
          if (computeReply dgesvd_ k U S VT A m n Ufull Vfull buf).info ≠ 0 then
            (if (computeReply dgesvd_ k U S VT A m n Ufull Vfull buf).info < 0 then 3 else 4)
          else 0,
        buf :=
          { len := buf.len + m * n +
              (queryReply dgesvd_ k U S VT A m n Ufull Vfull buf).work0 -
              (queryReply dgesvd_ k U S VT A m n Ufull Vfull buf).work0 - m * n,
            max_len := buf.max_len,
            data := (computeReply dgesvd_ k U S VT A m n Ufull Vfull buf).mem.data },
        U := (computeReply dgesvd_ k U S VT A m n Ufull Vfull buf).mem.U,
        S := (computeReply dgesvd_ k U S VT A m n Ufull Vfull buf).mem.S,
        VT := (computeReply dgesvd_ k U S VT A m n Ufull Vfull buf).mem.VT,
        A := A,
        kernel := (computeReply dgesvd_ k U S VT A m n Ufull Vfull buf).next,
        calls :=
          [{ args := queryArgs m n Ufull Vfull buf.len, len := buf.len + m * n },
           { args := computeArgs m n Ufull Vfull buf.len
               (queryReply dgesvd_ k U S VT A m n Ufull Vfull buf).work0
               (queryReply dgesvd_ k U S VT A m n Ufull Vfull buf).info,
             len := buf.len + m * n +
               (queryReply dgesvd_ k U S VT A m n Ufull Vfull buf).work0 }] } := by
  simp only [linalg_svd, if_neg h1, if_pos h2, if_neg h3]

/-- The status computed from the `info` of the second call is 0, 3 or 4. -/
theorem compute_status_cases (ci : Int) :
    (ci = 0 ∧ (if ci ≠ 0 then (if ci < 0 then (3 : Int) else 4) else 0) = 0) ∨
    (ci < 0 ∧ (if ci ≠ 0 then (if ci < 0 then (3 : Int) else 4) else 0) = 3) ∨
    (0 < ci ∧ (if ci ≠ 0 then (if ci < 0 then (3 : Int) else 4) else 0) = 4) := by
  rcases lt_trichotomy ci 0 with h | h | h
  · right; left
    exact ⟨h, by rw [if_pos (ne_of_lt h), if_pos h]⟩
  · left
    exact ⟨h, by simp [h]⟩
  · right; right
    exact ⟨h, by rw [if_pos (ne_of_gt h), if_neg (not_lt.mpr (le_of_lt h))]⟩

/-- The status computed from the `info` of the second call is never 1, 2 or 5. -/
theorem compute_status_ne (ci : Int) :
    (if ci ≠ 0 then (if ci < 0 then (3 : Int) else 4) else 0) ≠ 1 ∧
    (if ci ≠ 0 then (if ci < 0 then (3 : Int) else 4) else 0) ≠ 2 ∧
    (if ci ≠ 0 then (if ci < 0 then (3 : Int) else 4) else 0) ≠ 5 := by
  rcases compute_status_cases ci with ⟨_, e⟩ | ⟨_, e⟩ | ⟨_, e⟩ <;> rw [e] <;> decide

/-- `linalg_svd` returns 1 exactly when the test of line 78 holds. -/
theorem svd_retval_one_iff {α κ : Type} (dgesvd_ : Kernel α κ) (k : κ)
    (U S VT A : Int → α) (m n : Int) (Ufull Vfull : Bool) (buf : LinalgBuffer α) :
    (linalg_svd dgesvd_ k U S VT A m n Ufull Vfull buf).retval = 1 ↔
      buf.max_len < buf.len + m * n := by
  constructor
  · intro hr
    by_contra h1
    by_cases h2 : (queryReply dgesvd_ k U S VT A m n Ufull Vfull buf).info = 0
    · by_cases h3 : buf.max_len <
        buf.len + m * n + (queryReply dgesvd_ k U S VT A m n Ufull Vfull buf).work0
      · rw [svd_path_scratch dgesvd_ k U S VT A m n Ufull Vfull buf h1 h2 h3] at hr
        simp at hr
      · rw [svd_path_compute dgesvd_ k U S VT A m n Ufull Vfull buf h1 h2 h3] at hr
        exact (compute_status_ne _).1 hr
    · rw [svd_path_query dgesvd_ k U S VT A m n Ufull Vfull buf h1 h2] at hr
      simp at hr
  · intro h
    rw [svd_path_input dgesvd_ k U S VT A m n Ufull Vfull buf h]

/-- `linalg_svd` returns 5 exactly when the copy fits and the first call stores
a non-zero `info`. -/
theorem svd_retval_five_iff {α κ : Type} (dgesvd_ : Kernel α κ) (k : κ)
    (U S VT A : Int → α) (m n : Int) (Ufull Vfull : Bool) (buf : LinalgBuffer α) :
    (linalg_svd dgesvd_ k U S VT A m n Ufull Vfull buf).retval = 5 ↔
      (¬ buf.max_len < buf.len + m * n ∧
        (queryReply dgesvd_ k U S VT A m n Ufull Vfull buf).info ≠ 0) := by
  constructor
  · intro hr
    by_cases h1 : buf.max_len < buf.len + m * n
    · rw [svd_path_input dgesvd_ k U S VT A m n Ufull Vfull buf h1] at hr
      simp at hr
    · refine ⟨h1, fun h2 => ?_⟩
      by_cases h3 : buf.max_len <
        buf.len + m * n + (queryReply dgesvd_ k U S VT A m n Ufull Vfull buf).work0
      · rw [svd_path_scratch dgesvd_ k U S VT A m n Ufull Vfull buf h1 h2 h3] at hr
        simp at hr
      · rw [svd_path_compute dgesvd_ k U S VT A m n Ufull Vfull buf h1 h2 h3] at hr
        exact (compute_status_ne _).2.2 hr
  · rintro ⟨h1, h2⟩
    rw [svd_path_query dgesvd_ k U S VT A m n Ufull Vfull buf h1 h2]

/-- `linalg_svd` returns 2 exactly when the copy fits, the first call stores
`info = 0`, and the test of line 107 holds. -/
theorem svd_retval_two_iff {α κ : Type} (dgesvd_ : Kernel α κ) (k : κ)
    (U S VT A : Int → α) (m n : Int) (Ufull Vfull : Bool) (buf : LinalgBuffer α) :
    (linalg_svd dgesvd_ k U S VT A m n Ufull Vfull buf).retval = 2 ↔
      (¬ buf.max_len < buf.len + m * n ∧
        (queryReply dgesvd_ k U S VT A m n Ufull Vfull buf).info = 0 ∧
        buf.max_len <
          buf.len + m * n + (queryReply dgesvd_ k U S VT A m n Ufull Vfull buf).work0) := by
  constructor
  · intro hr
    by_cases h1 : buf.max_len < buf.len + m * n
    · rw [svd_path_input dgesvd_ k U S VT A m n Ufull Vfull buf h1] at hr
      simp at hr
    · by_cases h2 : (queryReply dgesvd_ k U S VT A m n Ufull Vfull buf).info = 0
      · refine ⟨h1, h2, ?_⟩
        by_contra h3
        rw [svd_path_compute dgesvd_ k U S VT A m n Ufull Vfull buf h1 h2 h3] at hr
        exact (compute_status_ne _).2.1 hr
      · rw [svd_path_query dgesvd_ k U S VT A m n Ufull Vfull buf h1 h2] at hr
        simp at hr
  · rintro ⟨h1, h2, h3⟩
    rw [svd_path_scratch dgesvd_ k U S VT A m n Ufull Vfull buf h1 h2 h3]

/-- The second call of `dgesvd_` is made exactly when the copy fits, the first
call stores `info = 0` and the test of line 107 fails; that is also exactly when
the status is 0, 3 or 4. -/
theorem svd_retval_compute_iff {α κ : Type} (dgesvd_ : Kernel α κ) (k : κ)
    (U S VT A : Int → α) (m n : Int) (Ufull Vfull : Bool) (buf : LinalgBuffer α) :
    ((linalg_svd dgesvd_ k U S VT A m n Ufull Vfull buf).retval = 0 ∨
      (linalg_svd dgesvd_ k U S VT A m n Ufull Vfull buf).retval = 3 ∨
      (linalg_svd dgesvd_ k U S VT A m n Ufull Vfull buf).retval = 4) ↔
      (¬ buf.max_len < buf.len + m * n ∧
        (queryReply dgesvd_ k U S VT A m n Ufull Vfull buf).info = 0 ∧
        ¬ buf.max_len <
          buf.len + m * n + (queryReply dgesvd_ k U S VT A m n Ufull Vfull buf).work0) := by
  constructor
  · intro hr
    by_cases h1 : buf.max_len < buf.len + m * n
    · rw [svd_path_input dgesvd_ k U S VT A m n Ufull Vfull buf h1] at hr
      simp at hr
    · by_cases h2 : (queryReply dgesvd_ k U S VT A m n Ufull Vfull buf).info = 0
      · refine ⟨h1, h2, fun h3 => ?_⟩
        rw [svd_path_scratch dgesvd_ k U S VT A m n Ufull Vfull buf h1 h2 h3] at hr
        simp at hr
      · rw [svd_path_query dgesvd_ k U S VT A m n Ufull Vfull buf h1 h2] at hr
        simp at hr
  · rintro ⟨h1, h2, h3⟩
    rw [svd_path_compute dgesvd_ k U S VT A m n Ufull Vfull buf h1 h2 h3]
    rcases compute_status_cases
      (computeReply dgesvd_ k U S VT A m n Ufull Vfull buf).info with
      ⟨_, e⟩ | ⟨_, e⟩ | ⟨_, e⟩
    · exact Or.inl e
    · exact Or.inr (Or.inl e)
    · exact Or.inr (Or.inr e)

/-- The field `max_len` is never written. -/
theorem svd_max_len {α κ : Type} (dgesvd_ : Kernel α κ) (k : κ)
    (U S VT A : Int → α) (m n : Int) (Ufull Vfull : Bool) (buf : LinalgBuffer α) :
    (linalg_svd dgesvd_ k U S VT A m n Ufull Vfull buf).buf.max_len = buf.max_len := by
  by_cases h1 : buf.max_len < buf.len + m * n
  · rw [svd_path_input dgesvd_ k U S VT A m n Ufull Vfull buf h1]
  · by_cases h2 : (queryReply dgesvd_ k U S VT A m n Ufull Vfull buf).info = 0
    · by_cases h3 : buf.max_len <
        buf.len + m * n + (queryReply dgesvd_ k U S VT A m n Ufull Vfull buf).work0
      · rw [svd_path_scratch dgesvd_ k U S VT A m n Ufull Vfull buf h1 h2 h3]
      · rw [svd_path_compute dgesvd_ k U S VT A m n Ufull Vfull buf h1 h2 h3]
    · rw [svd_path_query dgesvd_ k U S VT A m n Ufull Vfull buf h1 h2]

/-- On every status other than 2 the cursor is back where it was. -/
theorem svd_len_of_ne_two {α κ : Type} (dgesvd_ : Kernel α κ) (k : κ)
    (U S VT A : Int → α) (m n : Int) (Ufull Vfull : Bool) (buf : LinalgBuffer α)
    (hr : (linalg_svd dgesvd_ k U S VT A m n Ufull Vfull buf).retval ≠ 2) :
    (linalg_svd dgesvd_ k U S VT A m n Ufull Vfull buf).buf.len = buf.len := by
  by_cases h1 : buf.max_len < buf.len + m * n
  · rw [svd_path_input dgesvd_ k U S VT A m n Ufull Vfull buf h1]
  · by_cases h2 : (queryReply dgesvd_ k U S VT A m n Ufull Vfull buf).info = 0
    · by_cases h3 : buf.max_len <
        buf.len + m * n + (queryReply dgesvd_ k U S VT A m n Ufull Vfull buf).work0
      · exact absurd
          ((svd_retval_two_iff dgesvd_ k U S VT A m n Ufull Vfull buf).2 ⟨h1, h2, h3⟩) hr
      · rw [svd_path_compute dgesvd_ k U S VT A m n Ufull Vfull buf h1 h2 h3]
        show buf.len + m * n + _ - _ - m * n = buf.len
        omega
    · rw [svd_path_query dgesvd_ k U S VT A m n Ufull Vfull buf h1 h2]
      show buf.len + m * n - m * n = buf.len
      omega

/-- On status 2 the cursor ends `m * n` below where it was. -/
theorem svd_len_of_two {α κ : Type} (dgesvd_ : Kernel α κ) (k : κ)
    (U S VT A : Int → α) (m n : Int) (Ufull Vfull : Bool) (buf : LinalgBuffer α)
    (hr : (linalg_svd dgesvd_ k U S VT A m n Ufull Vfull buf).retval = 2) :
    (linalg_svd dgesvd_ k U S VT A m n Ufull Vfull buf).buf.len = buf.len - m * n := by
  obtain ⟨h1, h2, h3⟩ := (svd_retval_two_iff dgesvd_ k U S VT A m n Ufull Vfull buf).1 hr
  rw [svd_path_scratch dgesvd_ k U S VT A m n Ufull Vfull buf h1 h2 h3]
  show buf.len + m * n - m * n - m * n = buf.len - m * n
  omega

/-- Every recorded call was handed the matrix at the cursor found on entry, with
the dimensions `m`, `n` and leading dimension `m`; its workspace is either the
local `work_query` or the region right after the copy. -/
theorem svd_calls_args {α κ : Type} (dgesvd_ : Kernel α κ) (k : κ)
    (U S VT A : Int → α) (m n : Int) (Ufull Vfull : Bool) (buf : LinalgBuffer α) :
    ∀ c ∈ (linalg_svd dgesvd_ k U S VT A m n Ufull Vfull buf).calls,
      c.args.a = buf.len ∧ c.args.m = m ∧ c.args.n = n ∧ c.args.lda = m ∧
      (c.args.work = none ∨
        (c.args.work = some (buf.len + m * n) ∧
          c.args.lwork = (queryReply dgesvd_ k U S VT A m n Ufull Vfull buf).work0)) := by
  intro c hc
  by_cases h1 : buf.max_len < buf.len + m * n
  · rw [svd_path_input dgesvd_ k U S VT A m n Ufull Vfull buf h1] at hc
    simp at hc
  · by_cases h2 : (queryReply dgesvd_ k U S VT A m n Ufull Vfull buf).info = 0
    · by_cases h3 : buf.max_len <
        buf.len + m * n + (queryReply dgesvd_ k U S VT A m n Ufull Vfull buf).work0
      · rw [svd_path_scratch dgesvd_ k U S VT A m n Ufull Vfull buf h1 h2 h3] at hc
        simp only [List.mem_singleton] at hc
        subst hc
        exact ⟨rfl, rfl, rfl, rfl, Or.inl rfl⟩
      · rw [svd_path_compute dgesvd_ k U S VT A m n Ufull Vfull buf h1 h2 h3] at hc
        simp only [List.mem_cons, List.mem_singleton, List.not_mem_nil, or_false] at hc
        rcases hc with hc | hc
        · subst hc
          exact ⟨rfl, rfl, rfl, rfl, Or.inl rfl⟩
        · subst hc
          exact ⟨rfl, rfl, rfl, rfl, Or.inr ⟨rfl, rfl⟩⟩
    · rw [svd_path_query dgesvd_ k U S VT A m n Ufull Vfull buf h1 h2] at hc
      simp only [List.mem_singleton] at hc
      subst hc
      exact ⟨rfl, rfl, rfl, rfl, Or.inl rfl⟩

/-- Unless the status is 1, the first recorded call is the query. -/
theorem svd_calls_head {α κ : Type} (dgesvd_ : Kernel α κ) (k : κ)
    (U S VT A : Int → α) (m n : Int) (Ufull Vfull : Bool) (buf : LinalgBuffer α)
    (hr : (linalg_svd dgesvd_ k U S VT A m n Ufull Vfull buf).retval ≠ 1) :
    (linalg_svd dgesvd_ k U S VT A m n Ufull Vfull buf).calls.head? =
      some { args := queryArgs m n Ufull Vfull buf.len, len := buf.len + m * n } := by
  have h1 : ¬ buf.max_len < buf.len + m * n := fun h =>
    hr ((svd_retval_one_iff dgesvd_ k U S VT A m n Ufull Vfull buf).2 h)
  by_cases h2 : (queryReply dgesvd_ k U S VT A m n Ufull Vfull buf).info = 0
  · by_cases h3 : buf.max_len <
      buf.len + m * n + (queryReply dgesvd_ k U S VT A m n Ufull Vfull buf).work0
    · rw [svd_path_scratch dgesvd_ k U S VT A m n Ufull Vfull buf h1 h2 h3]; rfl
    · rw [svd_path_compute dgesvd_ k U S VT A m n Ufull Vfull buf h1 h2 h3]; rfl
  · rw [svd_path_query dgesvd_ k U S VT A m n Ufull Vfull buf h1 h2]; rfl

/-- The caller's input array is the same on return. -/
theorem svd_input_array {α κ : Type} (dgesvd_ : Kernel α κ) (k : κ)
    (U S VT A : Int → α) (m n : Int) (Ufull Vfull : Bool) (buf : LinalgBuffer α) :
    (linalg_svd dgesvd_ k U S VT A m n Ufull Vfull buf).A = A := by
  by_cases h1 : buf.max_len < buf.len + m * n
  · rw [svd_path_input dgesvd_ k U S VT A m n Ufull Vfull buf h1]
  · by_cases h2 : (queryReply dgesvd_ k U S VT A m n Ufull Vfull buf).info = 0
    · by_cases h3 : buf.max_len <
        buf.len + m * n + (queryReply dgesvd_ k U S VT A m n Ufull Vfull buf).work0
      · rw [svd_path_scratch dgesvd_ k U S VT A m n Ufull Vfull buf h1 h2 h3]
      · rw [svd_path_compute dgesvd_ k U S VT A m n Ufull Vfull buf h1 h2 h3]
    · rw [svd_path_query dgesvd_ k U S VT A m n Ufull Vfull buf h1 h2]

/-- On status 5 and on status 2 the only call is the query, and the memory and
the kernel state on return are the ones that call left. -/
theorem svd_after_query {α κ : Type} (dgesvd_ : Kernel α κ) (k : κ)
    (U S VT A : Int → α) (m n : Int) (Ufull Vfull : Bool) (buf : LinalgBuffer α)
    (hr : (linalg_svd dgesvd_ k U S VT A m n Ufull Vfull buf).retval = 5 ∨
      (linalg_svd dgesvd_ k U S VT A m n Ufull Vfull buf).retval = 2) :
    (linalg_svd dgesvd_ k U S VT A m n Ufull Vfull buf).calls =
      [{ args := queryArgs m n Ufull Vfull buf.len, len := buf.len + m * n }] ∧
    (linalg_svd dgesvd_ k U S VT A m n Ufull Vfull buf).kernel =
      (queryReply dgesvd_ k U S VT A m n Ufull Vfull buf).next ∧
    (linalg_svd dgesvd_ k U S VT A m n Ufull Vfull buf).buf.data =
      (queryReply dgesvd_ k U S VT A m n Ufull Vfull buf).mem.data ∧
    (linalg_svd dgesvd_ k U S VT A m n Ufull Vfull buf).U =
      (queryReply dgesvd_ k U S VT A m n Ufull Vfull buf).mem.U ∧
    (linalg_svd dgesvd_ k U S VT A m n Ufull Vfull buf).S =
      (queryReply dgesvd_ k U S VT A m n Ufull Vfull buf).mem.S ∧
    (linalg_svd dgesvd_ k U S VT A m n Ufull Vfull buf).VT =
      (queryReply dgesvd_ k U S VT A m n Ufull Vfull buf).mem.VT := by
  rcases hr with hr | hr
  · obtain ⟨h1, h2⟩ := (svd_retval_five_iff dgesvd_ k U S VT A m n Ufull Vfull buf).1 hr
    rw [svd_path_query dgesvd_ k U S VT A m n Ufull Vfull buf h1 h2]
    exact ⟨rfl, rfl, rfl, rfl, rfl, rfl⟩
  · obtain ⟨h1, h2, h3⟩ := (svd_retval_two_iff dgesvd_ k U S VT A m n Ufull Vfull buf).1 hr
    rw [svd_path_scratch dgesvd_ k U S VT A m n Ufull Vfull buf h1 h2 h3]
    exact ⟨rfl, rfl, rfl, rfl, rfl, rfl⟩

/-- On status 0, 3 and 4 the calls are the query and then the call with the
workspace, and the memory and the kernel state on return are the ones the second
call left. -/
theorem svd_after_compute {α κ : Type} (dgesvd_ : Kernel α κ) (k : κ)
    (U S VT A : Int → α) (m n : Int) (Ufull Vfull : Bool) (buf : LinalgBuffer α)
    (hr : (linalg_svd dgesvd_ k U S VT A m n Ufull Vfull buf).retval = 0 ∨
      (linalg_svd dgesvd_ k U S VT A m n Ufull Vfull buf).retval = 3 ∨
      (linalg_svd dgesvd_ k U S VT A m n Ufull Vfull buf).retval = 4) :
    (linalg_svd dgesvd_ k U S VT A m n Ufull Vfull buf).calls =
      [{ args := queryArgs m n Ufull Vfull buf.len, len := buf.len + m * n },
       { args := computeArgs m n Ufull Vfull buf.len
           (queryReply dgesvd_ k U S VT A m n Ufull Vfull buf).work0
           (queryReply dgesvd_ k U S VT A m n Ufull Vfull buf).info,
         len := buf.len + m * n +
           (queryReply dgesvd_ k U S VT A m n Ufull Vfull buf).work0 }] ∧
    (linalg_svd dgesvd_ k U S VT A m n Ufull Vfull buf).kernel =
      (computeReply dgesvd_ k U S VT A m n Ufull Vfull buf).next ∧
    (linalg_svd dgesvd_ k U S VT A m n Ufull Vfull buf).buf.data =
      (computeReply dgesvd_ k U S VT A m n Ufull Vfull buf).mem.data ∧
    (linalg_svd dgesvd_ k U S VT A m n Ufull Vfull buf).U =
      (computeReply dgesvd_ k U S VT A m n Ufull Vfull buf).mem.U ∧
    (linalg_svd dgesvd_ k U S VT A m n Ufull Vfull buf).S =
      (computeReply dgesvd_ k U S VT A m n Ufull Vfull buf).mem.S ∧
    (linalg_svd dgesvd_ k U S VT A m n Ufull Vfull buf).VT =
      (computeReply dgesvd_ k U S VT A m n Ufull Vfull buf).mem.VT := by
  obtain ⟨h1, h2, h3⟩ :=
    (svd_retval_compute_iff dgesvd_ k U S VT A m n Ufull Vfull buf).1 hr
  rw [svd_path_compute dgesvd_ k U S VT A m n Ufull Vfull buf h1 h2 h3]
  exact ⟨rfl, rfl, rfl, rfl, rfl, rfl⟩

/-- The status is one of 0, 1, 2, 3, 4, 5. -/
theorem svd_retval_cases {α κ : Type} (dgesvd_ : Kernel α κ) (k : κ)
    (U S VT A : Int → α) (m n : Int) (Ufull Vfull : Bool) (buf : LinalgBuffer α) :
    (linalg_svd dgesvd_ k U S VT A m n Ufull Vfull buf).retval = 1 ∨
    ((linalg_svd dgesvd_ k U S VT A m n Ufull Vfull buf).retval = 5 ∨
      (linalg_svd dgesvd_ k U S VT A m n Ufull Vfull buf).retval = 2) ∨
    ((linalg_svd dgesvd_ k U S VT A m n Ufull Vfull buf).retval = 0 ∨
      (linalg_svd dgesvd_ k U S VT A m n Ufull Vfull buf).retval = 3 ∨
      (linalg_svd dgesvd_ k U S VT A m n Ufull Vfull buf).retval = 4) := by
  by_cases h1 : buf.max_len < buf.len + m * n
  · exact Or.inl ((svd_retval_one_iff dgesvd_ k U S VT A m n Ufull Vfull buf).2 h1)
  · by_cases h2 : (queryReply dgesvd_ k U S VT A m n Ufull Vfull buf).info = 0
    · by_cases h3 : buf.max_len <
        buf.len + m * n + (queryReply dgesvd_ k U S VT A m n Ufull Vfull buf).work0
      · exact Or.inr (Or.inl (Or.inr
          ((svd_retval_two_iff dgesvd_ k U S VT A m n Ufull Vfull buf).2 ⟨h1, h2, h3⟩)))
      · exact Or.inr (Or.inr
          ((svd_retval_compute_iff dgesvd_ k U S VT A m n Ufull Vfull buf).2 ⟨h1, h2, h3⟩))
    · exact Or.inr (Or.inl (Or.inl
        ((svd_retval_five_iff dgesvd_ k U S VT A m n Ufull Vfull buf).2 ⟨h1, h2⟩)))

/-- Two input arrays that agree on their first `m * n` elements give the same
status, buffer, outputs, kernel state and calls. -/
theorem svd_congr_input {α κ : Type} (dgesvd_ : Kernel α κ) (k : κ)
    (U S VT A A2 : Int → α) (m n : Int) (Ufull Vfull : Bool) (buf : LinalgBuffer α)
    (hA : ∀ j, 0 ≤ j → j < m * n → A2 j = A j) :
    (linalg_svd dgesvd_ k U S VT A2 m n Ufull Vfull buf).retval =
      (linalg_svd dgesvd_ k U S VT A m n Ufull Vfull buf).retval ∧
    (linalg_svd dgesvd_ k U S VT A2 m n Ufull Vfull buf).buf =
      (linalg_svd dgesvd_ k U S VT A m n Ufull Vfull buf).buf ∧
    (linalg_svd dgesvd_ k U S VT A2 m n Ufull Vfull buf).U =
      (linalg_svd dgesvd_ k U S VT A m n Ufull Vfull buf).U ∧
    (linalg_svd dgesvd_ k U S VT A2 m n Ufull Vfull buf).S =
      (linalg_svd dgesvd_ k U S VT A m n Ufull Vfull buf).S ∧
    (linalg_svd dgesvd_ k U S VT A2 m n Ufull Vfull buf).VT =
      (linalg_svd dgesvd_ k U S VT A m n Ufull Vfull buf).VT ∧
    (linalg_svd dgesvd_ k U S VT A2 m n Ufull Vfull buf).kernel =
      (linalg_svd dgesvd_ k U S VT A m n Ufull Vfull buf).kernel ∧
    (linalg_svd dgesvd_ k U S VT A2 m n Ufull Vfull buf).calls =
      (linalg_svd dgesvd_ k U S VT A m n Ufull Vfull buf).calls := by
  have hcopy : memcpy buf.data buf.len A2 (m * n) = memcpy buf.data buf.len A (m * n) := by
    funext i
    unfold memcpy
    by_cases hi : buf.len ≤ i ∧ i < buf.len + m * n
    · rw [if_pos hi, if_pos hi]
      exact hA (i - buf.len) (by omega) (by omega)
    · rw [if_neg hi, if_neg hi]
  have hq : queryReply dgesvd_ k U S VT A2 m n Ufull Vfull buf =
      queryReply dgesvd_ k U S VT A m n Ufull Vfull buf := by
    unfold queryReply
    rw [hcopy]
  have hc : computeReply dgesvd_ k U S VT A2 m n Ufull Vfull buf =
      computeReply dgesvd_ k U S VT A m n Ufull Vfull buf := by
    unfold computeReply
    rw [hq]
  by_cases h1 : buf.max_len < buf.len + m * n
  · rw [svd_path_input dgesvd_ k U S VT A m n Ufull Vfull buf h1,
      svd_path_input dgesvd_ k U S VT A2 m n Ufull Vfull buf h1]
    exact ⟨rfl, rfl, rfl, rfl, rfl, rfl, rfl⟩
  · by_cases h2 : (queryReply dgesvd_ k U S VT A m n Ufull Vfull buf).info = 0
    · by_cases h3 : buf.max_len <
        buf.len + m * n + (queryReply dgesvd_ k U S VT A m n Ufull Vfull buf).work0
      · rw [svd_path_scratch dgesvd_ k U S VT A m n Ufull Vfull buf h1 h2 h3,
          svd_path_scratch dgesvd_ k U S VT A2 m n Ufull Vfull buf h1 (by rw [hq]; exact h2)
            (by rw [hq]; exact h3), hq]
        exact ⟨rfl, rfl, rfl, rfl, rfl, rfl, rfl⟩
      · rw [svd_path_compute dgesvd_ k U S VT A m n Ufull Vfull buf h1 h2 h3,
          svd_path_compute dgesvd_ k U S VT A2 m n Ufull Vfull buf h1 (by rw [hq]; exact h2)
            (by rw [hq]; exact h3), hq, hc]
        exact ⟨rfl, rfl, rfl, rfl, rfl, rfl, rfl⟩
    · rw [svd_path_query dgesvd_ k U S VT A m n Ufull Vfull buf h1 h2,
        svd_path_query dgesvd_ k U S VT A2 m n Ufull Vfull buf h1 (by rw [hq]; exact h2), hq]
      exact ⟨rfl, rfl, rfl, rfl, rfl, rfl, rfl⟩

/-! ## The cursor on return -/

/-- Claim C1, evaluated where it fails.  A 2x3 input on a buffer with `len = 4`
and `max_len = 20`, a kernel whose query succeeds and reports a workspace of 11
elements: `linalg_svd` returns 2 and leaves `len = -2`, not the 4 it found. -/
theorem linalg_svd_len_not_restored :
    (zeroBuf 4 20).len = 4 ∧
    (linalg_svd (fixedKernel 11 0 0) () out0 out0 out0 main_A 2 3 false false
      (zeroBuf 4 20)).retval = 2 ∧
    (linalg_svd (fixedKernel 11 0 0) () out0 out0 out0 main_A 2 3 false false
      (zeroBuf 4 20)).buf.len = -2 := by
  decide

/-- Claim C2, evaluated where it fails.  The 3x3 identity on a buffer of
capacity `9 + 3`, a kernel whose query succeeds and reports a workspace of 15
elements: the copy fits, `linalg_svd` returns 2 as claimed, but `len` is -9 on
return and not the 0 it was before: the copy is released twice. -/
theorem linalg_svd_scratch_rollback_twice :
    (zeroBuf 0 12).len + 3 * 3 ≤ (zeroBuf 0 12).max_len ∧
    (queryReply (fixedKernel 15 0 0) () out0 out0 out0 main_A 3 3 false false
      (zeroBuf 0 12)).info = 0 ∧
    (zeroBuf 0 12).len + 3 * 3 +
      (queryReply (fixedKernel 15 0 0) () out0 out0 out0 main_A 3 3 false false
        (zeroBuf 0 12)).work0 > (zeroBuf 0 12).max_len ∧
    (linalg_svd (fixedKernel 15 0 0) () out0 out0 out0 main_A 3 3 false false
      (zeroBuf 0 12)).retval = 2 ∧
    (linalg_svd (fixedKernel 15 0 0) () out0 out0 out0 main_A 3 3 false false
      (zeroBuf 0 12)).buf.len = -9 ∧
    (linalg_svd (fixedKernel 15 0 0) () out0 out0 out0 main_A 3 3 false false
      (zeroBuf 0 12)).buf.len ≠ (zeroBuf 0 12).len := by
  decide

/-- Claim C3, evaluated where it fails.  The buffer of the driver
(`len = 0`, `max_len = BUF_SIZE`) satisfies `0 ≤ len ≤ max_len`; with the 3x3
input of the driver and a kernel whose query reports a workspace of 60
elements, `linalg_svd` returns 2 with `max_len` unchanged but `len = -9 < 0`. -/
theorem linalg_svd_breaks_len_nonneg :
    (0 ≤ main_buf.len ∧ main_buf.len ≤ main_buf.max_len) ∧
    (1 ≤ ROWS ∧ 1 ≤ COLS) ∧
    0 ≤ (queryReply (fixedKernel 60 0 0) () out0 out0 out0 main_A ROWS COLS false false
      main_buf).work0 ∧
    (linalg_svd (fixedKernel 60 0 0) () out0 out0 out0 main_A ROWS COLS false false
      main_buf).retval = 2 ∧
    (linalg_svd (fixedKernel 60 0 0) () out0 out0 out0 main_A ROWS COLS false false
      main_buf).buf.max_len = main_buf.max_len ∧
    (linalg_svd (fixedKernel 60 0 0) () out0 out0 out0 main_A ROWS COLS false false
      main_buf).buf.len < 0 := by
  decide

/-! ## Input copy does not fit -/

/-- Claim C4.  When the buffer cannot hold the copy (`len + m * n > max_len`),
`linalg_svd` returns 1, the buffer (`len`, `max_len` and `data`) is the one it
was given, `dgesvd_` is not called at all (no recorded call, kernel state as
before) and the outputs `U`, `S`, `VT` are as before. -/
theorem linalg_svd_input_short_atomic {α κ : Type} (dgesvd_ : Kernel α κ) (k : κ)
    (U S VT A : Int → α) (m n : Int) (Ufull Vfull : Bool) (buf : LinalgBuffer α)
    (h : buf.len + m * n > buf.max_len) :
    (linalg_svd dgesvd_ k U S VT A m n Ufull Vfull buf).retval = 1 ∧
    (linalg_svd dgesvd_ k U S VT A m n Ufull Vfull buf).buf = buf ∧
    (linalg_svd dgesvd_ k U S VT A m n Ufull Vfull buf).buf.len = buf.len ∧
    (linalg_svd dgesvd_ k U S VT A m n Ufull Vfull buf).buf.max_len = buf.max_len ∧
    (linalg_svd dgesvd_ k U S VT A m n Ufull Vfull buf).buf.data = buf.data ∧
    (linalg_svd dgesvd_ k U S VT A m n Ufull Vfull buf).calls = [] ∧
    (linalg_svd dgesvd_ k U S VT A m n Ufull Vfull buf).kernel = k ∧
    (linalg_svd dgesvd_ k U S VT A m n Ufull Vfull buf).U = U ∧
    (linalg_svd dgesvd_ k U S VT A m n Ufull Vfull buf).S = S ∧
    (linalg_svd dgesvd_ k U S VT A m n Ufull Vfull buf).VT = VT := by
  rw [svd_path_input dgesvd_ k U S VT A m n Ufull Vfull buf h]
  exact ⟨rfl, rfl, rfl, rfl, rfl, rfl, rfl, rfl, rfl, rfl⟩

/-- Claim C4 at the 3x3 identity with a buffer of capacity 5, for a kernel that
would otherwise succeed. -/
theorem linalg_svd_input_short_atomic_witness :
    (zeroBuf 0 5).len + 3 * 3 > (zeroBuf 0 5).max_len ∧
    (linalg_svd (fixedKernel 15 0 0) () out0 out0 out0 main_A 3 3 false false
      (zeroBuf 0 5)).retval = 1 ∧
    (linalg_svd (fixedKernel 15 0 0) () out0 out0 out0 main_A 3 3 false false
      (zeroBuf 0 5)).buf = zeroBuf 0 5 ∧
    (linalg_svd (fixedKernel 15 0 0) () out0 out0 out0 main_A 3 3 false false
      (zeroBuf 0 5)).calls = [] :=
  have h := linalg_svd_input_short_atomic (fixedKernel 15 0 0) () out0 out0 out0 main_A 3 3
    false false (zeroBuf 0 5) (by decide)
  ⟨by decide, h.1, h.2.1, h.2.2.2.2.2.1⟩

/-! ## The two capacity tests -/

/-- Claim C5.  The reservation of the copy fails (status 1) exactly when
`len + m * n > max_len`: a request of exactly `max_len - len` elements is
accepted and the first call of `dgesvd_` sees the cursor at `max_len`; a
request of `max_len - len + 1` elements is rejected with status 1 and `len`
as before.  Once the copy fits and the query stores `info = 0`, the
reservation of the workspace fails (status 2) exactly when
`len + m * n + lwork > max_len`, and when it succeeds the second call sees the
cursor at `len + m * n + lwork`. -/
theorem linalg_svd_capacity_boundary {α κ : Type} (dgesvd_ : Kernel α κ) (k : κ)
    (U S VT A : Int → α) (m n : Int) (Ufull Vfull : Bool) (buf : LinalgBuffer α) :
    ((linalg_svd dgesvd_ k U S VT A m n Ufull Vfull buf).retval = 1 ↔
      buf.len + m * n > buf.max_len) ∧
    (m * n = buf.max_len - buf.len →
      (linalg_svd dgesvd_ k U S VT A m n Ufull Vfull buf).retval ≠ 1 ∧
      ∃ c, (linalg_svd dgesvd_ k U S VT A m n Ufull Vfull buf).calls.head? = some c ∧
        c.args = queryArgs m n Ufull Vfull buf.len ∧ c.len = buf.max_len) ∧
    (m * n = buf.max_len - buf.len + 1 →
      (linalg_svd dgesvd_ k U S VT A m n Ufull Vfull buf).retval = 1 ∧
      (linalg_svd dgesvd_ k U S VT A m n Ufull Vfull buf).buf.len = buf.len) ∧
    (buf.len + m * n ≤ buf.max_len →
      (queryReply dgesvd_ k U S VT A m n Ufull Vfull buf).info = 0 →
      ((linalg_svd dgesvd_ k U S VT A m n Ufull Vfull buf).retval = 2 ↔
        buf.len + m * n + (queryReply dgesvd_ k U S VT A m n Ufull Vfull buf).work0 >
          buf.max_len) ∧
      (¬ buf.len + m * n + (queryReply dgesvd_ k U S VT A m n Ufull Vfull buf).work0 >
          buf.max_len →
        ∃ c, (linalg_svd dgesvd_ k U S VT A m n Ufull Vfull buf).calls.getLast? = some c ∧
          c.args.work = some (buf.len + m * n) ∧
          c.len = buf.len + m * n +
            (queryReply dgesvd_ k U S VT A m n Ufull Vfull buf).work0)) := by
  refine ⟨svd_retval_one_iff dgesvd_ k U S VT A m n Ufull Vfull buf, ?_, ?_, ?_⟩
  · intro hmn
    have h1 : ¬ buf.max_len < buf.len + m * n := by omega
    refine ⟨fun hr => h1 ((svd_retval_one_iff dgesvd_ k U S VT A m n Ufull Vfull buf).1 hr), ?_⟩
    refine ⟨{ args := queryArgs m n Ufull Vfull buf.len, len := buf.len + m * n }, ?_, rfl, ?_⟩
    · by_cases h2 : (queryReply dgesvd_ k U S VT A m n Ufull Vfull buf).info = 0
      · by_cases h3 : buf.max_len <
          buf.len + m * n + (queryReply dgesvd_ k U S VT A m n Ufull Vfull buf).work0
        · rw [svd_path_scratch dgesvd_ k U S VT A m n Ufull Vfull buf h1 h2 h3]; rfl
        · rw [svd_path_compute dgesvd_ k U S VT A m n Ufull Vfull buf h1 h2 h3]; rfl
      · rw [svd_path_query dgesvd_ k U S VT A m n Ufull Vfull buf h1 h2]; rfl
    · show buf.len + m * n = buf.max_len
      omega
  · intro hmn
    have h1 : buf.max_len < buf.len + m * n := by omega
    rw [svd_path_input dgesvd_ k U S VT A m n Ufull Vfull buf h1]
    exact ⟨rfl, rfl⟩
  · intro hfit h2
    have h1 : ¬ buf.max_len < buf.len + m * n := by omega
    constructor
    · rw [svd_retval_two_iff dgesvd_ k U S VT A m n Ufull Vfull buf]
      constructor
      · rintro ⟨_, _, h3⟩
        exact h3
      · intro h3
        exact ⟨h1, h2, h3⟩
    · intro h3
      rw [svd_path_compute dgesvd_ k U S VT A m n Ufull Vfull buf h1 h2 h3]
      exact ⟨_, rfl, rfl, rfl⟩

/-- Claim C5 at the driver's 3x3 input: a buffer of capacity 9 takes the copy
exactly, one of capacity 8 does not, and with the copy in place a workspace of
15 elements fits a capacity of 24 and not one of 23. -/
theorem linalg_svd_capacity_boundary_witness :
    (linalg_svd (fixedKernel 15 0 0) () out0 out0 out0 main_A 3 3 false false
      (zeroBuf 0 9)).retval ≠ 1 ∧
    (linalg_svd (fixedKernel 15 0 0) () out0 out0 out0 main_A 3 3 false false
      (zeroBuf 0 8)).retval = 1 ∧
    (linalg_svd (fixedKernel 15 0 0) () out0 out0 out0 main_A 3 3 false false
      (zeroBuf 0 8)).buf.len = 0 ∧
    (linalg_svd (fixedKernel 15 0 0) () out0 out0 out0 main_A 3 3 false false
      (zeroBuf 0 23)).retval = 2 ∧
    (linalg_svd (fixedKernel 15 0 0) () out0 out0 out0 main_A 3 3 false false
      (zeroBuf 0 24)).retval ≠ 2 :=
  have h9 := linalg_svd_capacity_boundary (fixedKernel 15 0 0) () out0 out0 out0 main_A 3 3
    false false (zeroBuf 0 9)
  have h8 := linalg_svd_capacity_boundary (fixedKernel 15 0 0) () out0 out0 out0 main_A 3 3
    false false (zeroBuf 0 8)
  have h23 := linalg_svd_capacity_boundary (fixedKernel 15 0 0) () out0 out0 out0 main_A 3 3
    false false (zeroBuf 0 23)
  have h24 := linalg_svd_capacity_boundary (fixedKernel 15 0 0) () out0 out0 out0 main_A 3 3
    false false (zeroBuf 0 24)
  ⟨(h9.2.1 (by decide)).1, (h8.2.2.1 (by decide)).1, (h8.2.2.1 (by decide)).2,
    ((h23.2.2.2 (by decide) (by decide)).1).2 (by decide),
    fun h => absurd (((h24.2.2.2 (by decide) (by decide)).1).1 h) (by decide)⟩

/-! ## The second call and its status -/

/-- Claim C6.  When the copy fits, the query stores `info = 0` and the
workspace fits, the second call of `dgesvd_` is made with the cursor at
`len + m * n + lwork`, and the status is 0 if that call stores `info = 0`, 3 if
it stores a negative `info` and 4 if it stores a positive one; in all three
cases `len` is back at its value before the call. -/
theorem linalg_svd_compute_status {α κ : Type} (dgesvd_ : Kernel α κ) (k : κ)
    (U S VT A : Int → α) (m n : Int) (Ufull Vfull : Bool) (buf : LinalgBuffer α)
    (h1 : buf.len + m * n ≤ buf.max_len)
    (h2 : (queryReply dgesvd_ k U S VT A m n Ufull Vfull buf).info = 0)
    (h3 : buf.len + m * n + (queryReply dgesvd_ k U S VT A m n Ufull Vfull buf).work0 ≤
      buf.max_len) :
    ((computeReply dgesvd_ k U S VT A m n Ufull Vfull buf).info = 0 →
      (linalg_svd dgesvd_ k U S VT A m n Ufull Vfull buf).retval = 0) ∧
    ((computeReply dgesvd_ k U S VT A m n Ufull Vfull buf).info < 0 →
      (linalg_svd dgesvd_ k U S VT A m n Ufull Vfull buf).retval = 3) ∧
    ((computeReply dgesvd_ k U S VT A m n Ufull Vfull buf).info > 0 →
      (linalg_svd dgesvd_ k U S VT A m n Ufull Vfull buf).retval = 4) ∧
    (linalg_svd dgesvd_ k U S VT A m n Ufull Vfull buf).buf.len = buf.len ∧
    (linalg_svd dgesvd_ k U S VT A m n Ufull Vfull buf).calls =
      [{ args := queryArgs m n Ufull Vfull buf.len, len := buf.len + m * n },
       { args := computeArgs m n Ufull Vfull buf.len
           (queryReply dgesvd_ k U S VT A m n Ufull Vfull buf).work0 0,
         len := buf.len + m * n +
           (queryReply dgesvd_ k U S VT A m n Ufull Vfull buf).work0 }] ∧
    (linalg_svd dgesvd_ k U S VT A m n Ufull Vfull buf).kernel =
      (computeReply dgesvd_ k U S VT A m n Ufull Vfull buf).next := by
  have g1 : ¬ buf.max_len < buf.len + m * n := by omega
  have g3 : ¬ buf.max_len <
      buf.len + m * n + (queryReply dgesvd_ k U S VT A m n Ufull Vfull buf).work0 := by omega
  rw [svd_path_compute dgesvd_ k U S VT A m n Ufull Vfull buf g1 h2 g3]
  refine ⟨?_, ?_, ?_, ?_, ?_, rfl⟩
  · intro hc
    simp [hc]
  · intro hc
    show (if _ ≠ 0 then (if _ < 0 then (3 : Int) else 4) else 0) = 3
    rw [if_pos (ne_of_lt hc), if_pos hc]
  · intro hc
    show (if _ ≠ 0 then (if _ < 0 then (3 : Int) else 4) else 0) = 4
    rw [if_pos (ne_of_gt hc), if_neg (not_lt.mpr (le_of_lt hc))]
  · show buf.len + m * n + _ - _ - m * n = buf.len
    omega
  · rw [h2]

/-- Claim C6 at the driver's call: the 3x3 identity, the buffer of capacity
`BUF_SIZE = 64` and a kernel that reports a workspace of 15 elements and stores
`info = 0` twice give status 0 and `len = 0` on return. -/
theorem linalg_svd_compute_status_witness :
    (main_buf.len + ROWS * COLS ≤ main_buf.max_len) ∧
    (linalg_svd (fixedKernel 15 0 0) () out0 out0 out0 main_A ROWS COLS false false
      main_buf).retval = 0 ∧
    (linalg_svd (fixedKernel 15 0 0) () out0 out0 out0 main_A ROWS COLS false false
      main_buf).buf.len = 0 :=
  have h := linalg_svd_compute_status (fixedKernel 15 0 0) () out0 out0 out0 main_A ROWS COLS
    false false main_buf (by decide) (by decide) (by decide)
  ⟨by decide, h.1 (by decide), h.2.2.2.1⟩

/-! ## Failure of the workspace query -/

/-- Claim C7.  When the copy fits and the first call of `dgesvd_` stores a
non-zero `info`, `linalg_svd` returns 5 whatever was left in `work_query`; the
only call of `dgesvd_` is the query (made with the cursor at `len + m * n`, no
workspace inside the buffer), the kernel state is the one that call left, and
`len` is back at its value before the call. -/
theorem linalg_svd_query_failed {α κ : Type} (dgesvd_ : Kernel α κ) (k : κ)
    (U S VT A : Int → α) (m n : Int) (Ufull Vfull : Bool) (buf : LinalgBuffer α)
    (h1 : buf.len + m * n ≤ buf.max_len)
    (h2 : (queryReply dgesvd_ k U S VT A m n Ufull Vfull buf).info ≠ 0) :
    (linalg_svd dgesvd_ k U S VT A m n Ufull Vfull buf).retval = 5 ∧
    (linalg_svd dgesvd_ k U S VT A m n Ufull Vfull buf).calls =
      [{ args := queryArgs m n Ufull Vfull buf.len, len := buf.len + m * n }] ∧
    (∀ c ∈ (linalg_svd dgesvd_ k U S VT A m n Ufull Vfull buf).calls,
      c.args.work = none ∧ c.args.lwork = -1 ∧ c.len = buf.len + m * n) ∧
    (linalg_svd dgesvd_ k U S VT A m n Ufull Vfull buf).kernel =
      (queryReply dgesvd_ k U S VT A m n Ufull Vfull buf).next ∧
    (linalg_svd dgesvd_ k U S VT A m n Ufull Vfull buf).buf.len = buf.len := by
  have g1 : ¬ buf.max_len < buf.len + m * n := by omega
  rw [svd_path_query dgesvd_ k U S VT A m n Ufull Vfull buf g1 h2]
  refine ⟨rfl, rfl, ?_, rfl, ?_⟩
  · intro c hc
    rw [List.mem_singleton] at hc
    subst hc
    exact ⟨rfl, rfl, rfl⟩
  · show buf.len + m * n - m * n = buf.len
    omega

/-- Claim C7 at the 3x3 identity with the driver's buffer and a kernel whose
query stores `info = -4` and leaves 1000 in `work_query`. -/
theorem linalg_svd_query_failed_witness :
    (main_buf.len + 3 * 3 ≤ main_buf.max_len) ∧
    (queryReply (fixedKernel 1000 (-4) 0) () out0 out0 out0 main_A 3 3 false false
      main_buf).info ≠ 0 ∧
    (linalg_svd (fixedKernel 1000 (-4) 0) () out0 out0 out0 main_A 3 3 false false
      main_buf).retval = 5 ∧
    (linalg_svd (fixedKernel 1000 (-4) 0) () out0 out0 out0 main_A 3 3 false false
      main_buf).buf.len = main_buf.len :=
  have h := linalg_svd_query_failed (fixedKernel 1000 (-4) 0) () out0 out0 out0 main_A 3 3
    false false main_buf (by decide) (by decide)
  ⟨by decide, by decide, h.1, h.2.2.2.2⟩

/-! ## The outputs and the second call -/

/-- Claim C8.  The second call of `dgesvd_` (the one given a workspace inside
the buffer) is made exactly when the status is 0, 3 or 4.  When the status is
1, 5 or 2 that call is not made, and, for a kernel that leaves `U`, `S` and
`VT` alone when called with `lwork = -1`, the outputs are as before the call. -/
theorem linalg_svd_outputs_only_by_compute {α κ : Type} (dgesvd_ : Kernel α κ) (k : κ)
    (U S VT A : Int → α) (m n : Int) (Ufull Vfull : Bool) (buf : LinalgBuffer α)
    (hq : ∀ (k0 : κ) (args : KernelArgs) (mem : KernelMem α), args.lwork = -1 →
      (dgesvd_ k0 args mem).mem.U = mem.U ∧ (dgesvd_ k0 args mem).mem.S = mem.S ∧
      (dgesvd_ k0 args mem).mem.VT = mem.VT) :
    ((∃ c ∈ (linalg_svd dgesvd_ k U S VT A m n Ufull Vfull buf).calls, c.args.work ≠ none) ↔
      ((linalg_svd dgesvd_ k U S VT A m n Ufull Vfull buf).retval = 0 ∨
        (linalg_svd dgesvd_ k U S VT A m n Ufull Vfull buf).retval = 3 ∨
        (linalg_svd dgesvd_ k U S VT A m n Ufull Vfull buf).retval = 4)) ∧
    (((linalg_svd dgesvd_ k U S VT A m n Ufull Vfull buf).retval = 1 ∨
        (linalg_svd dgesvd_ k U S VT A m n Ufull Vfull buf).retval = 5 ∨
        (linalg_svd dgesvd_ k U S VT A m n Ufull Vfull buf).retval = 2) →
      (∀ c ∈ (linalg_svd dgesvd_ k U S VT A m n Ufull Vfull buf).calls,
        c.args.work = none ∧ c.args.lwork = -1) ∧
      (linalg_svd dgesvd_ k U S VT A m n Ufull Vfull buf).calls.length ≤ 1 ∧
      (linalg_svd dgesvd_ k U S VT A m n Ufull Vfull buf).U = U ∧
      (linalg_svd dgesvd_ k U S VT A m n Ufull Vfull buf).S = S ∧
      (linalg_svd dgesvd_ k U S VT A m n Ufull Vfull buf).VT = VT) := by
  have hU := hq k (queryArgs m n Ufull Vfull buf.len)
    { data := memcpy buf.data buf.len A (m * n), S := S, U := U, VT := VT } rfl
  rw [svd_retval_compute_iff dgesvd_ k U S VT A m n Ufull Vfull buf]
  by_cases h1 : buf.max_len < buf.len + m * n
  · rw [svd_path_input dgesvd_ k U S VT A m n Ufull Vfull buf h1]
    simp [h1]
  · by_cases h2 : (queryReply dgesvd_ k U S VT A m n Ufull Vfull buf).info = 0
    · by_cases h3 : buf.max_len <
        buf.len + m * n + (queryReply dgesvd_ k U S VT A m n Ufull Vfull buf).work0
      · rw [svd_path_scratch dgesvd_ k U S VT A m n Ufull Vfull buf h1 h2 h3]
        refine ⟨?_, fun _ => ⟨?_, ?_, hU.1, hU.2.1, hU.2.2⟩⟩
        · simp [h1, h2, h3, queryArgs]
        · simp [queryArgs]
        · simp
      · rw [svd_path_compute dgesvd_ k U S VT A m n Ufull Vfull buf h1 h2 h3]
        refine ⟨?_, fun hr => ?_⟩
        · simp [h1, h2, h3, queryArgs, computeArgs]
        · exfalso
          have hne := compute_status_ne (computeReply dgesvd_ k U S VT A m n Ufull Vfull buf).info
          rcases hr with hr | hr | hr
          · exact hne.1 hr
          · exact hne.2.2 hr
          · exact hne.2.1 hr
    · rw [svd_path_query dgesvd_ k U S VT A m n Ufull Vfull buf h1 h2]
      refine ⟨?_, fun _ => ⟨?_, ?_, hU.1, hU.2.1, hU.2.2⟩⟩
      · simp [h1, h2, queryArgs]
      · simp [queryArgs]
      · simp

/-- Claim C8 at the 3x3 identity on a buffer of capacity 12 with a kernel that
writes no memory and reports a workspace of 15 elements: status 2, a single
recorded call, and the outputs as before. -/
theorem linalg_svd_outputs_only_by_compute_witness :
    (∀ (k0 : Unit) (args : KernelArgs) (mem : KernelMem ℚ), args.lwork = -1 →
      (fixedKernel 15 0 0 k0 args mem).mem.U = mem.U ∧
      (fixedKernel 15 0 0 k0 args mem).mem.S = mem.S ∧
      (fixedKernel 15 0 0 k0 args mem).mem.VT = mem.VT) ∧
    (linalg_svd (fixedKernel 15 0 0) () out0 out0 out0 main_A 3 3 false false
      (zeroBuf 0 12)).retval = 2 ∧
    (linalg_svd (fixedKernel 15 0 0) () out0 out0 out0 main_A 3 3 false false
      (zeroBuf 0 12)).calls.length ≤ 1 ∧
    (linalg_svd (fixedKernel 15 0 0) () out0 out0 out0 main_A 3 3 false false
      (zeroBuf 0 12)).U = out0 :=
  have hq : ∀ (k0 : Unit) (args : KernelArgs) (mem : KernelMem ℚ), args.lwork = -1 →
      (fixedKernel 15 0 0 k0 args mem).mem.U = mem.U ∧
      (fixedKernel 15 0 0 k0 args mem).mem.S = mem.S ∧
      (fixedKernel 15 0 0 k0 args mem).mem.VT = mem.VT :=
    fun _ _ _ _ => ⟨rfl, rfl, rfl⟩
  have h := (linalg_svd_outputs_only_by_compute (fixedKernel 15 0 0) () out0 out0 out0 main_A
    3 3 false false (zeroBuf 0 12) hq).2 (Or.inr (Or.inr (by decide)))
  ⟨hq, by decide, h.2.1, h.2.2.1⟩

/-! ## The leading dimension of `VT` -/

/-- Claim C9.  For all `m` and `n` (in particular `m ≥ 1`, `n ≥ 1`) and both
values of each option, the `ldvt`
of lines 93-97 (`n`, unless `m < n` and `Vfull` is false, when it is `m`) is the
number of rows of `VT` in the table of the documentation comment, which is
`min m n` for `Vfull` false and `n` for `Vfull` true; it is the same for both
values of `Ufull`, and every call of `dgesvd_` made by `linalg_svd` is given
this value. -/
theorem linalg_svd_ldvt_shape {α κ : Type} (dgesvd_ : Kernel α κ) (k : κ)
    (U S VT A : Int → α) (m n : Int) (Ufull Vfull : Bool) (buf : LinalgBuffer α) :
    ldvt_of m n Vfull = (if m < n ∧ Vfull = false then m else n) ∧
    ldvt_of m n Vfull = vt_rows m n Ufull Vfull ∧
    vt_rows m n Ufull Vfull = (if Vfull = true then n else min m n) ∧
    vt_rows m n Ufull Vfull = vt_rows m n (!Ufull) Vfull ∧
    (∀ c ∈ (linalg_svd dgesvd_ k U S VT A m n Ufull Vfull buf).calls,
      c.args.ldvt = ldvt_of m n Vfull) ∧
    (∀ c ∈ (linalg_svd dgesvd_ k U S VT A m n (!Ufull) Vfull buf).calls,
      c.args.ldvt = ldvt_of m n Vfull) := by
  have hcalls : ∀ (Uf : Bool), ∀ c ∈ (linalg_svd dgesvd_ k U S VT A m n Uf Vfull buf).calls,
      c.args.ldvt = ldvt_of m n Vfull := by
    intro Uf c hc
    by_cases h1 : buf.max_len < buf.len + m * n
    · rw [svd_path_input dgesvd_ k U S VT A m n Uf Vfull buf h1] at hc
      simp at hc
    · by_cases h2 : (queryReply dgesvd_ k U S VT A m n Uf Vfull buf).info = 0
      · by_cases h3 : buf.max_len <
          buf.len + m * n + (queryReply dgesvd_ k U S VT A m n Uf Vfull buf).work0
        · rw [svd_path_scratch dgesvd_ k U S VT A m n Uf Vfull buf h1 h2 h3] at hc
          simp only [List.mem_singleton] at hc
          subst hc
          rfl
        · rw [svd_path_compute dgesvd_ k U S VT A m n Uf Vfull buf h1 h2 h3] at hc
          simp only [List.mem_cons, List.mem_singleton, List.not_mem_nil, or_false] at hc
          rcases hc with hc | hc <;> subst hc <;> rfl
      · rw [svd_path_query dgesvd_ k U S VT A m n Uf Vfull buf h1 h2] at hc
        simp only [List.mem_singleton] at hc
        subst hc
        rfl
  refine ⟨rfl, ?_, ?_, ?_, hcalls Ufull, hcalls (!Ufull)⟩
  · cases Ufull <;> cases Vfull <;> simp [ldvt_of, vt_rows, svd_s] <;> omega
  · cases Ufull <;> cases Vfull <;> simp [vt_rows, svd_s, min_def]
  · cases Ufull <;> cases Vfull <;> rfl

/-- Claim C9 at the two shapes of the text: `m = 3, n = 3` gives 3 and
`m = 2, n = 5` gives 2, both with `Ufull` and `Vfull` false. -/
theorem linalg_svd_ldvt_shape_witness :
    ((1 : Int) ≤ 3 ∧ (1 : Int) ≤ 2 ∧ (1 : Int) ≤ 5) ∧
    (ldvt_of 3 3 false = vt_rows 3 3 false false ∧ vt_rows 3 3 false false = 3) ∧
    (ldvt_of 2 5 false = vt_rows 2 5 false false ∧ vt_rows 2 5 false false = 2) ∧
    (∀ c ∈ (linalg_svd (fixedKernel 15 0 0) () out0 out0 out0 main_A 2 5 false false
      main_buf).calls, c.args.ldvt = 2) :=
  have h33 := linalg_svd_ldvt_shape (fixedKernel 15 0 0) () out0 out0 out0 main_A 3 3
    false false main_buf
  have h25 := linalg_svd_ldvt_shape (fixedKernel 15 0 0) () out0 out0 out0 main_A 2 5
    false false main_buf
  ⟨by decide, ⟨h33.2.1, by decide⟩, ⟨h25.2.1, by decide⟩, h25.2.2.2.2.1⟩

/-! ## Where the two reservations lie -/

/-- Claim C10.  Let `0 ≤ len`, `max_len ≤ BUF_SIZE`, `m ≥ 1` and `n ≥ 1` (the
bounds `len ≤ max_len` and `lwork ≥ 0` of the claim are not needed: the two
capacity tests give what is used of them).  Every call of `dgesvd_` is given the copy at
`[len, len + m * n)`, and every index there lies in `[0, max_len)`, inside
`data`.  The call that is given a workspace inside the buffer (made exactly on
status 0, 3 or 4) is given `[len + m * n, len + m * n + lwork)`: it starts where
the copy ends, shares no index with it, and every index there lies in
`[0, max_len)`, inside `data`. -/
theorem linalg_svd_regions {α κ : Type} (dgesvd_ : Kernel α κ) (k : κ)
    (U S VT A : Int → α) (m n : Int) (Ufull Vfull : Bool) (buf : LinalgBuffer α)
    (h0 : 0 ≤ buf.len) (hmax : buf.max_len ≤ BUF_SIZE) (hm : 1 ≤ m) (hn : 1 ≤ n) :
    (∀ c ∈ (linalg_svd dgesvd_ k U S VT A m n Ufull Vfull buf).calls,
      c.args.a = buf.len ∧
      ∀ i, inRegion buf.len (m * n) i → 0 ≤ i ∧ i < buf.max_len ∧ i < BUF_SIZE) ∧
    (∀ c ∈ (linalg_svd dgesvd_ k U S VT A m n Ufull Vfull buf).calls,
      ∀ w, c.args.work = some w →
        w = buf.len + m * n ∧
        c.args.lwork = (queryReply dgesvd_ k U S VT A m n Ufull Vfull buf).work0 ∧
        (∀ i, inRegion w c.args.lwork i → 0 ≤ i ∧ i < buf.max_len ∧ i < BUF_SIZE) ∧
        (∀ i, ¬ (inRegion buf.len (m * n) i ∧ inRegion w c.args.lwork i))) ∧
    (((linalg_svd dgesvd_ k U S VT A m n Ufull Vfull buf).retval = 0 ∨
        (linalg_svd dgesvd_ k U S VT A m n Ufull Vfull buf).retval = 3 ∨
        (linalg_svd dgesvd_ k U S VT A m n Ufull Vfull buf).retval = 4) ↔
      ∃ c ∈ (linalg_svd dgesvd_ k U S VT A m n Ufull Vfull buf).calls,
        c.args.work = some (buf.len + m * n)) := by
  have hmn : 0 ≤ m * n := mul_nonneg (by omega) (by omega)
  rw [svd_retval_compute_iff dgesvd_ k U S VT A m n Ufull Vfull buf]
  by_cases h1 : buf.max_len < buf.len + m * n
  · rw [svd_path_input dgesvd_ k U S VT A m n Ufull Vfull buf h1]
    simp [h1]
  · have hin : ∀ i, inRegion buf.len (m * n) i → 0 ≤ i ∧ i < buf.max_len ∧ i < BUF_SIZE := by
      intro i hi
      unfold inRegion at hi
      omega
    by_cases h2 : (queryReply dgesvd_ k U S VT A m n Ufull Vfull buf).info = 0
    · by_cases h3 : buf.max_len <
        buf.len + m * n + (queryReply dgesvd_ k U S VT A m n Ufull Vfull buf).work0
      · rw [svd_path_scratch dgesvd_ k U S VT A m n Ufull Vfull buf h1 h2 h3]
        refine ⟨?_, ?_, ?_⟩
        · intro c hc
          simp only [List.mem_singleton] at hc
          subst hc
          exact ⟨rfl, hin⟩
        · intro c hc w hwk
          simp only [List.mem_singleton] at hc
          subst hc
          simp [queryArgs] at hwk
        · simp [h1, h2, h3, queryArgs]
      · rw [svd_path_compute dgesvd_ k U S VT A m n Ufull Vfull buf h1 h2 h3]
        refine ⟨?_, ?_, ?_⟩
        · intro c hc
          simp only [List.mem_cons, List.mem_singleton, List.not_mem_nil, or_false] at hc
          rcases hc with hc | hc <;> subst hc <;> exact ⟨rfl, hin⟩
        · intro c hc w hwk
          simp only [List.mem_cons, List.mem_singleton, List.not_mem_nil, or_false] at hc
          rcases hc with hc | hc
          · subst hc
            simp [queryArgs] at hwk
          · subst hc
            simp only [computeArgs, Option.some.injEq] at hwk
            subst hwk
            refine ⟨rfl, rfl, ?_, ?_⟩
            · intro i hi
              simp only [computeArgs, inRegion] at hi
              omega
            · intro i hi
              simp only [computeArgs, inRegion] at hi
              omega
        · simp [h1, h2, h3, queryArgs, computeArgs]
    · rw [svd_path_query dgesvd_ k U S VT A m n Ufull Vfull buf h1 h2]
      refine ⟨?_, ?_, ?_⟩
      · intro c hc
        simp only [List.mem_singleton] at hc
        subst hc
        exact ⟨rfl, hin⟩
      · intro c hc w hwk
        simp only [List.mem_singleton] at hc
        subst hc
        simp [queryArgs] at hwk
      · simp [h1, h2, queryArgs]

/-- Claim C10 at the driver's call with a kernel that reports a workspace of 15
elements: the copy is `[0, 9)`, the workspace is `[9, 24)`, and index 23, the
last of the workspace, is below `max_len = 64`. -/
theorem linalg_svd_regions_witness :
    (0 ≤ main_buf.len ∧ main_buf.len ≤ main_buf.max_len ∧ main_buf.max_len ≤ BUF_SIZE) ∧
    ((1 : Int) ≤ 3 ∧ 0 ≤ (queryReply (fixedKernel 15 0 0) () out0 out0 out0 main_A 3 3 false
      false main_buf).work0) ∧
    (∃ c ∈ (linalg_svd (fixedKernel 15 0 0) () out0 out0 out0 main_A 3 3 false false
      main_buf).calls, c.args.work = some (main_buf.len + 3 * 3)) ∧
    (∀ c ∈ (linalg_svd (fixedKernel 15 0 0) () out0 out0 out0 main_A 3 3 false false
      main_buf).calls, ∀ w, c.args.work = some w →
        w = 9 ∧ c.args.lwork = 15 ∧
        (∀ i, inRegion w c.args.lwork i → 0 ≤ i ∧ i < main_buf.max_len ∧ i < BUF_SIZE) ∧
        (∀ i, ¬ (inRegion main_buf.len (3 * 3) i ∧ inRegion w c.args.lwork i))) :=
  have h := linalg_svd_regions (fixedKernel 15 0 0) () out0 out0 out0 main_A 3 3 false false
    main_buf (by decide) (by decide) (by decide) (by decide)
  ⟨by decide, by decide, h.2.2.1 (Or.inl (by decide)), h.2.1⟩

/-! ## Two calls in sequence -/

/-- Claim C11.  Let a first call of `linalg_svd` return 0, and let a second call
on the buffer and kernel state left by the first (with any matrix, dimensions,
options and output arrays) return 0 as well.  Then `len` after the first call
and `len` after the second call both equal `len` before the first call,
`max_len` stays the same, and in both calls `dgesvd_` is called first with the
copy at that same offset, as is every other call made. -/
theorem linalg_svd_twice_no_leak {α κ : Type} (dgesvd_ : Kernel α κ) (k : κ)
    (U S VT A : Int → α) (m n : Int) (Ufull Vfull : Bool) (buf : LinalgBuffer α)
    (U2 S2 VT2 A2 : Int → α) (m2 n2 : Int) (Ufull2 Vfull2 : Bool)
    (r1 r2 : SvdResult α κ)
    (e1 : r1 = linalg_svd dgesvd_ k U S VT A m n Ufull Vfull buf)
    (e2 : r2 = linalg_svd dgesvd_ r1.kernel U2 S2 VT2 A2 m2 n2 Ufull2 Vfull2 r1.buf)
    (h1 : r1.retval = 0) (h2 : r2.retval = 0) :
    r1.buf.len = buf.len ∧ r2.buf.len = buf.len ∧
    r1.buf.max_len = buf.max_len ∧ r2.buf.max_len = buf.max_len ∧
    (∃ c, r1.calls.head? = some c ∧ c.args.a = buf.len ∧ c.len = buf.len + m * n) ∧
    (∃ c, r2.calls.head? = some c ∧ c.args.a = buf.len ∧ c.len = buf.len + m2 * n2) ∧
    (∀ c ∈ r1.calls ++ r2.calls, c.args.a = buf.len) := by
  have l1 : r1.buf.len = buf.len := by
    rw [e1]
    exact svd_len_of_ne_two dgesvd_ k U S VT A m n Ufull Vfull buf
      (by rw [← e1, h1]; decide)
  have l2 : r2.buf.len = buf.len := by
    rw [e2, ← l1]
    exact svd_len_of_ne_two dgesvd_ r1.kernel U2 S2 VT2 A2 m2 n2 Ufull2 Vfull2 r1.buf
      (by rw [← e2, h2]; decide)
  have c1 := svd_calls_head dgesvd_ k U S VT A m n Ufull Vfull buf
    (by rw [← e1, h1]; decide)
  have c2 := svd_calls_head dgesvd_ r1.kernel U2 S2 VT2 A2 m2 n2 Ufull2 Vfull2 r1.buf
    (by rw [← e2, h2]; decide)
  rw [← e1] at c1
  rw [← e2, l1] at c2
  refine ⟨l1, l2, ?_, ?_, ⟨_, c1, rfl, rfl⟩, ⟨_, c2, rfl, rfl⟩, ?_⟩
  · rw [e1]
    exact svd_max_len dgesvd_ k U S VT A m n Ufull Vfull buf
  · rw [e2, svd_max_len dgesvd_ r1.kernel U2 S2 VT2 A2 m2 n2 Ufull2 Vfull2 r1.buf, e1]
    exact svd_max_len dgesvd_ k U S VT A m n Ufull Vfull buf
  · intro c hc
    rcases List.mem_append.1 hc with hc | hc
    · rw [e1] at hc
      exact (svd_calls_args dgesvd_ k U S VT A m n Ufull Vfull buf c hc).1
    · rw [e2] at hc
      rw [← l1]
      exact (svd_calls_args dgesvd_ r1.kernel U2 S2 VT2 A2 m2 n2 Ufull2 Vfull2 r1.buf c hc).1

/-- Claim C11 at the driver's call made twice on the driver's buffer, with a
kernel that reports a workspace of 15 elements and stores `info = 0`. -/
theorem linalg_svd_twice_no_leak_witness :
    (linalg_svd (fixedKernel 15 0 0) () out0 out0 out0 main_A 3 3 false false
      main_buf).retval = 0 ∧
    (linalg_svd (fixedKernel 15 0 0)
      (linalg_svd (fixedKernel 15 0 0) () out0 out0 out0 main_A 3 3 false false
        main_buf).kernel
      out0 out0 out0 main_A 3 3 false false
      (linalg_svd (fixedKernel 15 0 0) () out0 out0 out0 main_A 3 3 false false
        main_buf).buf).retval = 0 ∧
    (linalg_svd (fixedKernel 15 0 0) () out0 out0 out0 main_A 3 3 false false
      main_buf).buf.len = main_buf.len ∧
    (linalg_svd (fixedKernel 15 0 0)
      (linalg_svd (fixedKernel 15 0 0) () out0 out0 out0 main_A 3 3 false false
        main_buf).kernel
      out0 out0 out0 main_A 3 3 false false
      (linalg_svd (fixedKernel 15 0 0) () out0 out0 out0 main_A 3 3 false false
        main_buf).buf).buf.len = main_buf.len :=
  have h := linalg_svd_twice_no_leak (fixedKernel 15 0 0) () out0 out0 out0 main_A 3 3
    false false main_buf out0 out0 out0 main_A 3 3 false false _ _ rfl rfl
    (by decide) (by decide)
  ⟨by decide, by decide, h.1, h.2.1⟩

/-! ## The cursor after a workspace that does not fit -/

/-- Claim C13.  Every call that returns 2 (so the copy fits, the query stores
`info = 0` and `len + m * n + lwork > max_len`) leaves `len` equal to its value
before the call minus `m * n`: the copy is released at line 109 and once more at
line 147.  With `len = 0` before the call and `m, n ≥ 1`, `len` is negative on
return. -/
theorem linalg_svd_scratch_cursor {α κ : Type} (dgesvd_ : Kernel α κ) (k : κ)
    (U S VT A : Int → α) (m n : Int) (Ufull Vfull : Bool) (buf : LinalgBuffer α)
    (hr : (linalg_svd dgesvd_ k U S VT A m n Ufull Vfull buf).retval = 2) :
    (buf.len + m * n ≤ buf.max_len ∧
      (queryReply dgesvd_ k U S VT A m n Ufull Vfull buf).info = 0 ∧
      buf.len + m * n + (queryReply dgesvd_ k U S VT A m n Ufull Vfull buf).work0 >
        buf.max_len) ∧
    (linalg_svd dgesvd_ k U S VT A m n Ufull Vfull buf).buf.len =
      buf.len + m * n - m * n - m * n ∧
    (linalg_svd dgesvd_ k U S VT A m n Ufull Vfull buf).buf.len = buf.len - m * n ∧
    (buf.len = 0 → 1 ≤ m → 1 ≤ n →
      (linalg_svd dgesvd_ k U S VT A m n Ufull Vfull buf).buf.len < 0) := by
  have hl := svd_len_of_two dgesvd_ k U S VT A m n Ufull Vfull buf hr
  obtain ⟨h1, h2, h3⟩ := (svd_retval_two_iff dgesvd_ k U S VT A m n Ufull Vfull buf).1 hr
  refine ⟨⟨by omega, h2, h3⟩, by omega, hl, ?_⟩
  intro h0 hm hn
  have hmn : 1 ≤ m * n := by nlinarith
  omega

/-- Claim C13 at the 3x3 identity on an empty buffer of capacity 12 with a
reported workspace of 15 elements: status 2 and `len = 0 - 9` on return. -/
theorem linalg_svd_scratch_cursor_witness :
    (linalg_svd (fixedKernel 15 0 0) () out0 out0 out0 main_A 3 3 false false
      (zeroBuf 0 12)).retval = 2 ∧
    (linalg_svd (fixedKernel 15 0 0) () out0 out0 out0 main_A 3 3 false false
      (zeroBuf 0 12)).buf.len = (zeroBuf 0 12).len - 3 * 3 ∧
    (linalg_svd (fixedKernel 15 0 0) () out0 out0 out0 main_A 3 3 false false
      (zeroBuf 0 12)).buf.len < 0 :=
  have h := linalg_svd_scratch_cursor (fixedKernel 15 0 0) () out0 out0 out0 main_A 3 3
    false false (zeroBuf 0 12) (by decide)
  ⟨by decide, h.2.2.1, h.2.2.2 rfl (by decide) (by decide)⟩

/-! ## The status as a whole -/

/-- Claim C14.  The status of `linalg_svd` is `statusSpec` of the cursor, the
ceiling, `m`, `n` and the three values the kernel left (`info` and the workspace
length of the query, `info` of the second call): it lies in `{0, ..., 5}`; it is
1, 5, 2, 3 or 4 exactly when the corresponding test is the first to fail in the
order copy, query, workspace, result; and it is 0 exactly when
`len + m * n ≤ max_len`, the query stores `info = 0`,
`len + m * n + lwork ≤ max_len` and the second call stores `info = 0`.  Two calls
that agree on these integers return the same status, whatever their matrices,
buffer storage, options, output arrays and kernels. -/
theorem linalg_svd_status_classification {α κ : Type} (dgesvd_ : Kernel α κ) (k : κ)
    (U S VT A : Int → α) (m n : Int) (Ufull Vfull : Bool) (buf : LinalgBuffer α) :
    (linalg_svd dgesvd_ k U S VT A m n Ufull Vfull buf).retval =
      statusSpec buf.len buf.max_len m n
        (queryReply dgesvd_ k U S VT A m n Ufull Vfull buf).info
        (queryReply dgesvd_ k U S VT A m n Ufull Vfull buf).work0
        (computeReply dgesvd_ k U S VT A m n Ufull Vfull buf).info ∧
    (linalg_svd dgesvd_ k U S VT A m n Ufull Vfull buf).retval ∈
      ([0, 1, 2, 3, 4, 5] : List Int) ∧
    ((linalg_svd dgesvd_ k U S VT A m n Ufull Vfull buf).retval = 1 ↔
      buf.len + m * n > buf.max_len) ∧
    ((linalg_svd dgesvd_ k U S VT A m n Ufull Vfull buf).retval = 5 ↔
      (buf.len + m * n ≤ buf.max_len ∧
        (queryReply dgesvd_ k U S VT A m n Ufull Vfull buf).info ≠ 0)) ∧
    ((linalg_svd dgesvd_ k U S VT A m n Ufull Vfull buf).retval = 2 ↔
      (buf.len + m * n ≤ buf.max_len ∧
        (queryReply dgesvd_ k U S VT A m n Ufull Vfull buf).info = 0 ∧
        buf.len + m * n + (queryReply dgesvd_ k U S VT A m n Ufull Vfull buf).work0 >
          buf.max_len)) ∧
    ((linalg_svd dgesvd_ k U S VT A m n Ufull Vfull buf).retval = 3 ↔
      (buf.len + m * n ≤ buf.max_len ∧
        (queryReply dgesvd_ k U S VT A m n Ufull Vfull buf).info = 0 ∧
        buf.len + m * n + (queryReply dgesvd_ k U S VT A m n Ufull Vfull buf).work0 ≤
          buf.max_len ∧
        (computeReply dgesvd_ k U S VT A m n Ufull Vfull buf).info < 0)) ∧
    ((linalg_svd dgesvd_ k U S VT A m n Ufull Vfull buf).retval = 4 ↔
      (buf.len + m * n ≤ buf.max_len ∧
        (queryReply dgesvd_ k U S VT A m n Ufull Vfull buf).info = 0 ∧
        buf.len + m * n + (queryReply dgesvd_ k U S VT A m n Ufull Vfull buf).work0 ≤
          buf.max_len ∧
        (computeReply dgesvd_ k U S VT A m n Ufull Vfull buf).info > 0)) ∧
    ((linalg_svd dgesvd_ k U S VT A m n Ufull Vfull buf).retval = 0 ↔
      (buf.len + m * n ≤ buf.max_len ∧
        (queryReply dgesvd_ k U S VT A m n Ufull Vfull buf).info = 0 ∧
        buf.len + m * n + (queryReply dgesvd_ k U S VT A m n Ufull Vfull buf).work0 ≤
          buf.max_len ∧
        (computeReply dgesvd_ k U S VT A m n Ufull Vfull buf).info = 0)) ∧
    (∀ (β μ : Type) (dgesvd2 : Kernel β μ) (k2 : μ) (U2 S2 VT2 A2 : Int → β)
      (Ufull2 Vfull2 : Bool) (buf2 : LinalgBuffer β),
      buf2.len = buf.len → buf2.max_len = buf.max_len →
      (queryReply dgesvd2 k2 U2 S2 VT2 A2 m n Ufull2 Vfull2 buf2).info =
        (queryReply dgesvd_ k U S VT A m n Ufull Vfull buf).info →
      (queryReply dgesvd2 k2 U2 S2 VT2 A2 m n Ufull2 Vfull2 buf2).work0 =
        (queryReply dgesvd_ k U S VT A m n Ufull Vfull buf).work0 →
      (computeReply dgesvd2 k2 U2 S2 VT2 A2 m n Ufull2 Vfull2 buf2).info =
        (computeReply dgesvd_ k U S VT A m n Ufull Vfull buf).info →
      (linalg_svd dgesvd2 k2 U2 S2 VT2 A2 m n Ufull2 Vfull2 buf2).retval =
        (linalg_svd dgesvd_ k U S VT A m n Ufull Vfull buf).retval) := by
  have key : ∀ (β μ : Type) (dgesvd2 : Kernel β μ) (k2 : μ) (U2 S2 VT2 A2 : Int → β)
      (Ufull2 Vfull2 : Bool) (buf2 : LinalgBuffer β),
      (linalg_svd dgesvd2 k2 U2 S2 VT2 A2 m n Ufull2 Vfull2 buf2).retval =
        statusSpec buf2.len buf2.max_len m n
          (queryReply dgesvd2 k2 U2 S2 VT2 A2 m n Ufull2 Vfull2 buf2).info
          (queryReply dgesvd2 k2 U2 S2 VT2 A2 m n Ufull2 Vfull2 buf2).work0
          (computeReply dgesvd2 k2 U2 S2 VT2 A2 m n Ufull2 Vfull2 buf2).info := by
    intro β μ dgesvd2 k2 U2 S2 VT2 A2 Ufull2 Vfull2 buf2
    unfold statusSpec
    by_cases h1 : buf2.max_len < buf2.len + m * n
    · rw [svd_path_input dgesvd2 k2 U2 S2 VT2 A2 m n Ufull2 Vfull2 buf2 h1, if_pos h1]
    · by_cases h2 : (queryReply dgesvd2 k2 U2 S2 VT2 A2 m n Ufull2 Vfull2 buf2).info = 0
      · by_cases h3 : buf2.max_len <
          buf2.len + m * n + (queryReply dgesvd2 k2 U2 S2 VT2 A2 m n Ufull2 Vfull2 buf2).work0
        · rw [svd_path_scratch dgesvd2 k2 U2 S2 VT2 A2 m n Ufull2 Vfull2 buf2 h1 h2 h3,
            if_neg h1, if_neg (not_not.mpr h2), if_pos h3]
        · rw [svd_path_compute dgesvd2 k2 U2 S2 VT2 A2 m n Ufull2 Vfull2 buf2 h1 h2 h3,
            if_neg h1, if_neg (not_not.mpr h2), if_neg h3]
          rcases compute_status_cases
            (computeReply dgesvd2 k2 U2 S2 VT2 A2 m n Ufull2 Vfull2 buf2).info with
            ⟨hc, e⟩ | ⟨hc, e⟩ | ⟨hc, e⟩
          · show (if _ ≠ 0 then (if _ < 0 then (3 : Int) else 4) else 0) = _
            rw [e, hc]
            simp
          · show (if _ ≠ 0 then (if _ < 0 then (3 : Int) else 4) else 0) = _
            rw [e, if_pos hc]
          · show (if _ ≠ 0 then (if _ < 0 then (3 : Int) else 4) else 0) = _
            rw [e, if_neg (not_lt.mpr (le_of_lt hc)), if_pos hc]
      · rw [svd_path_query dgesvd2 k2 U2 S2 VT2 A2 m n Ufull2 Vfull2 buf2 h1 h2,
          if_neg h1, if_pos h2]
  have hs := key α κ dgesvd_ k U S VT A Ufull Vfull buf
  have hcomp := svd_retval_compute_iff dgesvd_ k U S VT A m n Ufull Vfull buf
  have hcase := compute_status_cases (computeReply dgesvd_ k U S VT A m n Ufull Vfull buf).info
  refine ⟨hs, ?_, svd_retval_one_iff dgesvd_ k U S VT A m n Ufull Vfull buf, ?_, ?_, ?_, ?_, ?_,
    ?_⟩
  · rw [hs]
    unfold statusSpec
    split_ifs <;> simp
  · rw [svd_retval_five_iff dgesvd_ k U S VT A m n Ufull Vfull buf, not_lt]
  · rw [svd_retval_two_iff dgesvd_ k U S VT A m n Ufull Vfull buf, not_lt]
  · rw [hs]
    unfold statusSpec
    split_ifs <;> constructor <;> intro h <;> omega
  · rw [hs]
    unfold statusSpec
    split_ifs <;> constructor <;> intro h <;> omega
  · rw [hs]
    unfold statusSpec
    split_ifs <;> constructor <;> intro h <;> omega
  · intro β μ dgesvd2 k2 U2 S2 VT2 A2 Ufull2 Vfull2 buf2 hl hM hqi hqw hci
    rw [hs, key β μ dgesvd2 k2 U2 S2 VT2 A2 Ufull2 Vfull2 buf2, hl, hM, hqi, hqw, hci]

/-- Claim C14 at the driver's call with a kernel that reports a workspace of 15
elements and stores `info = 0` in the query and `info = 2` in the second call:
the status is 4, the value of `statusSpec`. -/
theorem linalg_svd_status_classification_witness :
    (linalg_svd (fixedKernel 15 0 2) () out0 out0 out0 main_A 3 3 false false
      main_buf).retval = statusSpec 0 64 3 3 0 15 2 ∧
    statusSpec 0 64 3 3 0 15 2 = 4 ∧
    statusSpec 0 5 3 3 7 100 (-1) = 1 ∧
    statusSpec 0 64 3 3 7 100 (-1) = 5 ∧
    statusSpec 0 64 3 3 0 100 (-1) = 2 :=
  ⟨(linalg_svd_status_classification (fixedKernel 15 0 2) () out0 out0 out0 main_A 3 3
    false false main_buf).1, by decide, by decide, by decide, by decide⟩

/-! ## The copy of the input -/

/-- Claim C12.  Let `r` be what `linalg_svd` returns, `qa` the arguments of
line 102, `mem0` the buffer storage with `A` copied to the `m * n` places from
the cursor found on entry together with the caller's `S`, `U`, `VT`, `q` what
`dgesvd_` leaves when called with `qa` on `mem0`, `ca` the arguments of line
119 and `c` what `dgesvd_` leaves when called with `ca` on the memory and kernel
state of `q`.  When the copy fits: the matrix argument of both calls is the
buffer at the cursor found on entry, where `mem0` holds `A` element for
element; the status is not 1; on status 5 and 2 the only call is the one with
`qa`, and the buffer storage, outputs and kernel state returned are those of
`q`; on status 0, 3 and 4 the calls are the ones with `qa` and `ca`, and what is
returned is that of `c`.  So the kernel is given `A` only as the copy inside the
buffer: no argument of either call is the caller's `A`, and any array that
agrees with `A` on its first `m * n` elements gives the same status, buffer,
outputs, kernel state and calls.  The caller's `A` is the same on return. -/
theorem linalg_svd_private_copy {α κ : Type} (dgesvd_ : Kernel α κ) (k : κ)
    (U S VT A : Int → α) (m n : Int) (Ufull Vfull : Bool) (buf : LinalgBuffer α)
    (qa ca : KernelArgs) (mem0 : KernelMem α) (q c : KernelReply α κ) (r : SvdResult α κ)
    (hqa : qa =
      { jobu := if Ufull = true then 'A' else 'S', jobvt := if Vfull = true then 'A' else 'S',
        m := m, n := n, a := buf.len, lda := m, ldu := m,
        ldvt := if m < n ∧ Vfull = false then m else n,
        work := none, lwork := -1, info := 0 })
    (hmem : mem0 =
      { data := fun i =>
          if buf.len ≤ i ∧ i < buf.len + m * n then A (i - buf.len) else buf.data i,
        S := S, U := U, VT := VT })
    (hq : q = dgesvd_ k qa mem0)
    (hca : ca =
      { jobu := if Ufull = true then 'A' else 'S', jobvt := if Vfull = true then 'A' else 'S',
        m := m, n := n, a := buf.len, lda := m, ldu := m,
        ldvt := if m < n ∧ Vfull = false then m else n,
        work := some (buf.len + m * n), lwork := q.work0, info := q.info })
    (hc : c = dgesvd_ q.next ca q.mem)
    (hr : r = linalg_svd dgesvd_ k U S VT A m n Ufull Vfull buf)
    (h1 : buf.len + m * n ≤ buf.max_len) :
    (qa.a = buf.len ∧ ca.a = buf.len ∧
      ∀ j, 0 ≤ j → j < m * n → mem0.data (buf.len + j) = A j) ∧
    r.retval ≠ 1 ∧
    (r.retval = 5 ↔ q.info ≠ 0) ∧
    (r.retval = 2 ↔ (q.info = 0 ∧ buf.max_len < buf.len + m * n + q.work0)) ∧
    ((r.retval = 5 ∨ r.retval = 2) →
      r.calls = [{ args := qa, len := buf.len + m * n }] ∧
      r.kernel = q.next ∧ r.buf.data = q.mem.data ∧
      r.U = q.mem.U ∧ r.S = q.mem.S ∧ r.VT = q.mem.VT) ∧
    ((r.retval = 0 ∨ r.retval = 3 ∨ r.retval = 4) →
      r.calls = [{ args := qa, len := buf.len + m * n },
        { args := ca, len := buf.len + m * n + q.work0 }] ∧
      r.kernel = c.next ∧ r.buf.data = c.mem.data ∧
      r.U = c.mem.U ∧ r.S = c.mem.S ∧ r.VT = c.mem.VT) ∧
    ((r.retval = 5 ∨ r.retval = 2) ∨ (r.retval = 0 ∨ r.retval = 3 ∨ r.retval = 4)) ∧
    r.A = A ∧
    (∀ A2 : Int → α, (∀ j, 0 ≤ j → j < m * n → A2 j = A j) →
      (linalg_svd dgesvd_ k U S VT A2 m n Ufull Vfull buf).retval = r.retval ∧
      (linalg_svd dgesvd_ k U S VT A2 m n Ufull Vfull buf).buf = r.buf ∧
      (linalg_svd dgesvd_ k U S VT A2 m n Ufull Vfull buf).U = r.U ∧
      (linalg_svd dgesvd_ k U S VT A2 m n Ufull Vfull buf).S = r.S ∧
      (linalg_svd dgesvd_ k U S VT A2 m n Ufull Vfull buf).VT = r.VT ∧
      (linalg_svd dgesvd_ k U S VT A2 m n Ufull Vfull buf).kernel = r.kernel ∧
      (linalg_svd dgesvd_ k U S VT A2 m n Ufull Vfull buf).calls = r.calls) := by
  subst hqa hmem
  have eq : q = queryReply dgesvd_ k U S VT A m n Ufull Vfull buf := hq
  subst eq
  have eca : ca = computeArgs m n Ufull Vfull buf.len
      (queryReply dgesvd_ k U S VT A m n Ufull Vfull buf).work0
      (queryReply dgesvd_ k U S VT A m n Ufull Vfull buf).info := hca
  subst eca
  have ec : c = computeReply dgesvd_ k U S VT A m n Ufull Vfull buf := hc
  subst ec
  have a1 := svd_retval_one_iff dgesvd_ k U S VT A m n Ufull Vfull buf
  have a5 := svd_retval_five_iff dgesvd_ k U S VT A m n Ufull Vfull buf
  have a2 := svd_retval_two_iff dgesvd_ k U S VT A m n Ufull Vfull buf
  have aq := svd_after_query dgesvd_ k U S VT A m n Ufull Vfull buf
  have ac := svd_after_compute dgesvd_ k U S VT A m n Ufull Vfull buf
  have acases := svd_retval_cases dgesvd_ k U S VT A m n Ufull Vfull buf
  have amax := svd_max_len dgesvd_ k U S VT A m n Ufull Vfull buf
  have aA := svd_input_array dgesvd_ k U S VT A m n Ufull Vfull buf
  have apath := svd_path_input dgesvd_ k U S VT A m n Ufull Vfull buf
  rw [← hr] at a1 a5 a2 aq ac acases amax aA apath
  have hfit : ¬ buf.max_len < buf.len + m * n := by omega
  have hne : r.retval ≠ 1 := fun h => hfit (a1.1 h)
  refine ⟨⟨rfl, rfl, ?_⟩, hne, ?_, ?_, aq, ac, ?_, aA, ?_⟩
  · intro j hj0 hj
    show (if buf.len ≤ buf.len + j ∧ buf.len + j < buf.len + m * n
      then A (buf.len + j - buf.len) else buf.data (buf.len + j)) = A j
    rw [if_pos ⟨by omega, by omega⟩]
    congr 1
    omega
  · rw [a5]
    exact ⟨fun h => h.2, fun h => ⟨hfit, h⟩⟩
  · rw [a2]
    exact ⟨fun h => h.2, fun h => ⟨hfit, h⟩⟩
  · rcases acases with h | h | h
    · exact absurd h hne
    · exact Or.inl h
    · exact Or.inr h
  · intro A2 hA
    rw [hr]
    exact svd_congr_input dgesvd_ k U S VT A A2 m n Ufull Vfull buf hA

/-- Claim C12 at the driver's call with a kernel that stores 7 in every element
it is handed and reports a workspace of 15 elements: the copy of the 3x3
identity starts at index 0 of the buffer, its element 4 (row 1, column 1) is 1
when the first call is made, both calls are recorded with the matrix at index
0, and the driver's `A` is the same on return. -/
theorem linalg_svd_private_copy_witness :
    (main_buf.len + 3 * 3 ≤ main_buf.max_len) ∧
    (∀ j, 0 ≤ j → j < 3 * 3 →
      (if main_buf.len ≤ main_buf.len + j ∧ main_buf.len + j < main_buf.len + 3 * 3
        then main_A (main_buf.len + j - main_buf.len)
        else main_buf.data (main_buf.len + j)) = main_A j) ∧
    main_A 4 = 1 ∧
    (linalg_svd (stampKernel 7 15 0 0) () out0 out0 out0 main_A 3 3 false false
      main_buf).retval = 0 ∧
    (linalg_svd (stampKernel 7 15 0 0) () out0 out0 out0 main_A 3 3 false false
      main_buf).calls.map (fun r => r.args.a) = [0, 0] ∧
    (linalg_svd (stampKernel 7 15 0 0) () out0 out0 out0 main_A 3 3 false false
      main_buf).buf.data 4 = 7 ∧
    (linalg_svd (stampKernel 7 15 0 0) () out0 out0 out0 main_A 3 3 false false
      main_buf).A = main_A :=
  have h := linalg_svd_private_copy (stampKernel 7 15 0 0) () out0 out0 out0 main_A 3 3
    false false main_buf _ _ _ _ _ _ rfl rfl rfl rfl rfl rfl (by decide)
  ⟨by decide, h.1.2.2, by decide, by decide, by decide, by decide, h.2.2.2.2.2.2.2.1⟩

/-! ## What is written in the buffer -/

/-- The stand-in kernel `stampKernel` writes the buffer only where it is handed. -/
theorem stampKernel_writesOnlyHanded (v : ℚ) (lw qi ci : Int) :
    writesOnlyHanded (stampKernel v lw qi ci) := by
  intro k args mem i ha hw
  have hh : handed args i = false := by
    unfold handed
    rw [Bool.or_eq_false_iff]
    refine ⟨decide_eq_false ha, ?_⟩
    cases hwork : args.work with
    | none => rfl
    | some w => exact decide_eq_false (hw w hwork)
  show (if handed args i = true then v else mem.data i) = mem.data i
  rw [hh]
  rfl

/-- Claim C15.  Let `m * n ≥ 0` (as for `m, n ≥ 1`) and let the kernel write the
buffer storage only inside what it is handed.  With `r`, `qa`, `mem0`, `q`,
`ca`, `c` as in the two calls of lines 102 and 119: the storage `mem0` on which
the first call runs differs from the storage on entry only on
`[len, len + m * n)`, where it holds `A`; this is the only write of
`linalg_svd` itself, for the second call runs on the memory the first one left
and the storage returned is the one the last call left.  On status 1 no call is
made and the whole storage is as on entry.  On status 5 and 2 the only call is
the query, handed `[len, len + m * n)` and no workspace in the buffer, and every
element outside that region is as on entry.  On status 0, 3 and 4 the second
call is handed the same region and the workspace
`[len + m * n, len + m * n + lwork)`, and every element outside the two regions
is as on entry.  On every exit path the elements below `len` and the field
`max_len` are as on entry. -/
theorem linalg_svd_frame {α κ : Type} (dgesvd_ : Kernel α κ) (k : κ)
    (U S VT A : Int → α) (m n : Int) (Ufull Vfull : Bool) (buf : LinalgBuffer α)
    (qa ca : KernelArgs) (mem0 : KernelMem α) (q c : KernelReply α κ) (r : SvdResult α κ)
    (hqa : qa =
      { jobu := if Ufull = true then 'A' else 'S', jobvt := if Vfull = true then 'A' else 'S',
        m := m, n := n, a := buf.len, lda := m, ldu := m,
        ldvt := if m < n ∧ Vfull = false then m else n,
        work := none, lwork := -1, info := 0 })
    (hmem : mem0 =
      { data := fun i =>
          if buf.len ≤ i ∧ i < buf.len + m * n then A (i - buf.len) else buf.data i,
        S := S, U := U, VT := VT })
    (hq : q = dgesvd_ k qa mem0)
    (hca : ca =
      { jobu := if Ufull = true then 'A' else 'S', jobvt := if Vfull = true then 'A' else 'S',
        m := m, n := n, a := buf.len, lda := m, ldu := m,
        ldvt := if m < n ∧ Vfull = false then m else n,
        work := some (buf.len + m * n), lwork := q.work0, info := q.info })
    (hc : c = dgesvd_ q.next ca q.mem)
    (hr : r = linalg_svd dgesvd_ k U S VT A m n Ufull Vfull buf)
    (hk : writesOnlyHanded dgesvd_) (hmn : 0 ≤ m * n) :
    ((∀ i, ¬ (buf.len ≤ i ∧ i < buf.len + m * n) → mem0.data i = buf.data i) ∧
      (∀ j, 0 ≤ j → j < m * n → mem0.data (buf.len + j) = A j)) ∧
    (r.retval = 1 → r.calls = [] ∧ r.buf.data = buf.data) ∧
    ((r.retval = 5 ∨ r.retval = 2) →
      r.calls = [{ args := qa, len := buf.len + m * n }] ∧
      r.buf.data = q.mem.data ∧
      ∀ i, ¬ (buf.len ≤ i ∧ i < buf.len + m * n) → r.buf.data i = buf.data i) ∧
    ((r.retval = 0 ∨ r.retval = 3 ∨ r.retval = 4) →
      r.calls = [{ args := qa, len := buf.len + m * n },
        { args := ca, len := buf.len + m * n + q.work0 }] ∧
      r.buf.data = c.mem.data ∧
      ∀ i, ¬ (buf.len ≤ i ∧ i < buf.len + m * n) →
        ¬ (buf.len + m * n ≤ i ∧ i < buf.len + m * n + q.work0) →
        r.buf.data i = buf.data i) ∧
    (r.retval = 1 ∨ (r.retval = 5 ∨ r.retval = 2) ∨
      (r.retval = 0 ∨ r.retval = 3 ∨ r.retval = 4)) ∧
    (∀ i, i < buf.len → r.buf.data i = buf.data i) ∧
    r.buf.max_len = buf.max_len := by
  subst hqa hmem
  have eq : q = queryReply dgesvd_ k U S VT A m n Ufull Vfull buf := hq
  subst eq
  have eca : ca = computeArgs m n Ufull Vfull buf.len
      (queryReply dgesvd_ k U S VT A m n Ufull Vfull buf).work0
      (queryReply dgesvd_ k U S VT A m n Ufull Vfull buf).info := hca
  subst eca
  have ec : c = computeReply dgesvd_ k U S VT A m n Ufull Vfull buf := hc
  subst ec
  have a1 := svd_retval_one_iff dgesvd_ k U S VT A m n Ufull Vfull buf
  have a5 := svd_retval_five_iff dgesvd_ k U S VT A m n Ufull Vfull buf
  have a2 := svd_retval_two_iff dgesvd_ k U S VT A m n Ufull Vfull buf
  have aq := svd_after_query dgesvd_ k U S VT A m n Ufull Vfull buf
  have ac := svd_after_compute dgesvd_ k U S VT A m n Ufull Vfull buf
  have acases := svd_retval_cases dgesvd_ k U S VT A m n Ufull Vfull buf
  have amax := svd_max_len dgesvd_ k U S VT A m n Ufull Vfull buf
  have aA := svd_input_array dgesvd_ k U S VT A m n Ufull Vfull buf
  have apath := svd_path_input dgesvd_ k U S VT A m n Ufull Vfull buf
  rw [← hr] at a1 a5 a2 aq ac acases amax aA apath
  have hcopy : ∀ i, ¬ (buf.len ≤ i ∧ i < buf.len + m * n) →
      memcpy buf.data buf.len A (m * n) i = buf.data i := by
    intro i hi
    unfold memcpy
    exact if_neg hi
  have hquery : ∀ i, ¬ (buf.len ≤ i ∧ i < buf.len + m * n) →
      (queryReply dgesvd_ k U S VT A m n Ufull Vfull buf).mem.data i = buf.data i := by
    intro i hi
    unfold queryReply
    rw [hk k (queryArgs m n Ufull Vfull buf.len)
      { data := memcpy buf.data buf.len A (m * n), S := S, U := U, VT := VT } i hi
      (fun w hw => by simp [queryArgs] at hw)]
    exact hcopy i hi
  have hcompute : ∀ i, ¬ (buf.len ≤ i ∧ i < buf.len + m * n) →
      ¬ (buf.len + m * n ≤ i ∧
        i < buf.len + m * n + (queryReply dgesvd_ k U S VT A m n Ufull Vfull buf).work0) →
      (computeReply dgesvd_ k U S VT A m n Ufull Vfull buf).mem.data i = buf.data i := by
    intro i hi hwi
    unfold computeReply
    rw [hk (queryReply dgesvd_ k U S VT A m n Ufull Vfull buf).next
      (computeArgs m n Ufull Vfull buf.len
        (queryReply dgesvd_ k U S VT A m n Ufull Vfull buf).work0
        (queryReply dgesvd_ k U S VT A m n Ufull Vfull buf).info)
      (queryReply dgesvd_ k U S VT A m n Ufull Vfull buf).mem i hi
      (fun w hw => by
        simp only [computeArgs, Option.some.injEq] at hw
        subst hw
        exact hwi)]
    exact hquery i hi
  have hfive : (r.retval = 5 ∨ r.retval = 2) →
      r.calls = [{ args := queryArgs m n Ufull Vfull buf.len, len := buf.len + m * n }] ∧
      r.buf.data = (queryReply dgesvd_ k U S VT A m n Ufull Vfull buf).mem.data ∧
      ∀ i, ¬ (buf.len ≤ i ∧ i < buf.len + m * n) → r.buf.data i = buf.data i := by
    intro h
    refine ⟨(aq h).1, (aq h).2.2.1, fun i hi => ?_⟩
    rw [(aq h).2.2.1]
    exact hquery i hi
  have hzero : (r.retval = 0 ∨ r.retval = 3 ∨ r.retval = 4) →
      r.calls = [{ args := queryArgs m n Ufull Vfull buf.len, len := buf.len + m * n },
        { args := computeArgs m n Ufull Vfull buf.len
            (queryReply dgesvd_ k U S VT A m n Ufull Vfull buf).work0
            (queryReply dgesvd_ k U S VT A m n Ufull Vfull buf).info,
          len := buf.len + m * n +
            (queryReply dgesvd_ k U S VT A m n Ufull Vfull buf).work0 }] ∧
      r.buf.data = (computeReply dgesvd_ k U S VT A m n Ufull Vfull buf).mem.data ∧
      ∀ i, ¬ (buf.len ≤ i ∧ i < buf.len + m * n) →
        ¬ (buf.len + m * n ≤ i ∧
          i < buf.len + m * n + (queryReply dgesvd_ k U S VT A m n Ufull Vfull buf).work0) →
        r.buf.data i = buf.data i := by
    intro h
    refine ⟨(ac h).1, (ac h).2.2.1, fun i hi hwi => ?_⟩
    rw [(ac h).2.2.1]
    exact hcompute i hi hwi
  have hone : r.retval = 1 → r.calls = [] ∧ r.buf.data = buf.data := by
    intro h
    rw [apath (a1.1 h)]
    exact ⟨rfl, rfl⟩
  refine ⟨⟨hcopy, ?_⟩, hone, hfive, hzero, acases, ?_, amax⟩
  · intro j hj0 hj
    show (if buf.len ≤ buf.len + j ∧ buf.len + j < buf.len + m * n
      then A (buf.len + j - buf.len) else buf.data (buf.len + j)) = A j
    rw [if_pos ⟨by omega, by omega⟩]
    congr 1
    omega
  · intro i hi
    rcases acases with h | h | h
    · rw [(hone h).2]
    · exact (hfive h).2.2 i (by omega)
    · exact (hzero h).2.2 i (by omega) (by omega)

/-- Claim C15 at a 2x3 call on a buffer with `len = 4` and capacity 64, with a
kernel that stores 7 in every element it is handed and reports a workspace of
11 elements.  When both calls store `info = 0` the status is 0, the elements at
indices 4 (copy) and 20 (workspace) are 7 on return, and the elements at index
3, below the cursor, and at index 21, past the workspace, are as on entry.  When
the query stores `info = -4` the status is 5, and the element at index 10, past
the copy, is as on entry. -/
theorem linalg_svd_frame_witness :
    writesOnlyHanded (stampKernel 7 11 0 0) ∧ (0 : Int) ≤ 2 * 3 ∧
    (linalg_svd (stampKernel 7 11 0 0) () out0 out0 out0 main_A 2 3 false false
      (zeroBuf 4 64)).retval = 0 ∧
    (linalg_svd (stampKernel 7 11 0 0) () out0 out0 out0 main_A 2 3 false false
      (zeroBuf 4 64)).buf.data 4 = 7 ∧
    (linalg_svd (stampKernel 7 11 0 0) () out0 out0 out0 main_A 2 3 false false
      (zeroBuf 4 64)).buf.data 20 = 7 ∧
    (linalg_svd (stampKernel 7 11 0 0) () out0 out0 out0 main_A 2 3 false false
      (zeroBuf 4 64)).buf.data 3 = (zeroBuf 4 64).data 3 ∧
    (linalg_svd (stampKernel 7 11 0 0) () out0 out0 out0 main_A 2 3 false false
      (zeroBuf 4 64)).buf.data 21 = (zeroBuf 4 64).data 21 ∧
    (linalg_svd (stampKernel 7 11 0 0) () out0 out0 out0 main_A 2 3 false false
      (zeroBuf 4 64)).buf.max_len = 64 ∧
    (linalg_svd (stampKernel 7 11 (-4) 0) () out0 out0 out0 main_A 2 3 false false
      (zeroBuf 4 64)).retval = 5 ∧
    (linalg_svd (stampKernel 7 11 (-4) 0) () out0 out0 out0 main_A 2 3 false false
      (zeroBuf 4 64)).buf.data 4 = 7 ∧
    (linalg_svd (stampKernel 7 11 (-4) 0) () out0 out0 out0 main_A 2 3 false false
      (zeroBuf 4 64)).buf.data 10 = (zeroBuf 4 64).data 10 :=
  have hk : writesOnlyHanded (stampKernel 7 11 0 0) := stampKernel_writesOnlyHanded 7 11 0 0
  have h := linalg_svd_frame (stampKernel 7 11 0 0) () out0 out0 out0 main_A 2 3 false false
    (zeroBuf 4 64) _ _ _ _ _ _ rfl rfl rfl rfl rfl rfl hk (by decide)
  have h5 := linalg_svd_frame (stampKernel 7 11 (-4) 0) () out0 out0 out0 main_A 2 3 false
    false (zeroBuf 4 64) _ _ _ _ _ _ rfl rfl rfl rfl rfl rfl
    (stampKernel_writesOnlyHanded 7 11 (-4) 0) (by decide)
  ⟨hk, by decide, by decide, by decide, by decide, h.2.2.2.2.2.1 3 (by decide),
    (h.2.2.2.1 (Or.inl (by decide))).2.2 21 (by decide) (by decide), h.2.2.2.2.2.2,
    by decide, by decide, (h5.2.2.1 (Or.inl (by decide))).2.2 10 (by decide)⟩

end EmbeddedLapack
